import Mathlib

/-!
Verification of the data transformation and chart-specification pipeline of
the dashboard application in `src/app.py`.

The embedding is shallow:

* a pandas DataFrame is a `DataFrame`: a list of present column names plus a
  list of rows, where a row is a function from column names to `Cell`s
  (a cell is a string, an exact rational standing for a float, or `na`
  standing for NaN / a missing value);
* Python values crossing the serialization layer are `PyVal` (a model of
  Python scalars, lists, tuples, dicts and of the engine-native numpy
  array / numpy scalar / pandas Series / pandas Index containers);
* machine floats are modelled as exact rationals, NaN as an explicit
  missing marker; fallible library calls (column lookup raising KeyError,
  arithmetic on strings raising TypeError) return `Except`.
-/

/-- A cell of the in-memory table: a string value, a numeric value (floats
modelled as exact rationals), or `na` (NaN / missing). -/
inductive Cell where
  | str (s : String)
  | num (q : ℚ)
  | na
deriving DecidableEq

/-- A row assigns a cell to every column name.  Only columns listed in
`DataFrame.cols` are observable through `getCol`. -/
abbrev Row := String → Cell

/-- The in-memory table produced by `pd.read_csv`: the list of column names
actually present, and the rows. -/
structure DataFrame where
  cols : List String
  rows : List Row

/-- Column selection `data[c]`: the list of cells of column `c`, raising
KeyError when the column is absent. -/
def getCol (df : DataFrame) (c : String) : Except String (List Cell) :=
  if c ∈ df.cols then .ok (df.rows.map (fun r => r c)) else .error ("KeyError: " ++ c)

/-- Column assignment `row[c] = v` at the row level. -/
def updateRow (r : Row) (c : String) (v : Cell) : Row :=
  fun c2 => if c2 = c then v else r c2

/-- Effectful map over a list in the `Except` monad (the elementwise
evaluation of a fallible vectorized pandas operation). -/
def mapME {α β : Type} (f : α → Except String β) : List α → Except String (List β)
  | [] => .ok []
  | a :: l => do
    let b ← f a
    let bs ← mapME f l
    pure (b :: bs)

/-- Numeric view of a cell as used by pandas arithmetic: numbers are exact,
NaN is `none`, and a string operand raises TypeError. -/
def toNumE : Cell → Except String (Option ℚ)
  | .num q => .ok (some q)
  | .na => .ok none
  | .str _ => .error "TypeError"

/-- Pure numeric view of a cell (`some` for numbers, `none` otherwise). -/
def toNumSafe : Cell → Option ℚ
  | .num q => some q
  | _ => none

mutual
/-- Model of a Python runtime value as it reaches the serialization layer:
`pyfloat none` is the float NaN, `npArray` / `pdSeries` / `pdIndex` are the
engine-native containers, `npFloat` / `npInt` the engine-native scalars. -/
inductive PyVal where
  | pynone
  | pybool (b : Bool)
  | pyint (n : ℤ)
  | pyfloat (f : Option ℚ)
  | pystr (s : String)
  | pylist (xs : PyList)
  | pytuple (xs : PyList)
  | pydict (kvs : PyDict)
  | npArray (xs : PyList)
  | pdSeries (xs : PyList)
  | pdIndex (xs : PyList)
  | npFloat (f : Option ℚ)
  | npInt (n : ℤ)
deriving DecidableEq

/-- A sequence of Python values. -/
inductive PyList where
  | nil
  | cons (v : PyVal) (tl : PyList)
deriving DecidableEq

/-- A string-keyed Python dict. -/
inductive PyDict where
  | dnil
  | dcons (k : String) (v : PyVal) (tl : PyDict)
deriving DecidableEq
end

mutual
/-- Elementwise conversion performed by `numpy.ndarray.tolist` (and by
`Series.tolist` / `Index.tolist`, which share it): engine-native scalars
become Python scalars, nested (regular, numeric) arrays become nested
lists, and any other Python object stored in an object-dtype container is
returned unconverted. -/
def toPyElem : PyVal → PyVal
  | .npFloat f => .pyfloat f
  | .npInt n => .pyint n
  | .npArray xs => .pylist (toPyElemL xs)
  | v => v

/-- `toPyElem` mapped over a sequence. -/
def toPyElemL : PyList → PyList
  | .nil => .nil
  | .cons v tl => .cons (toPyElem v) (toPyElemL tl)
end

mutual
/-- The recursive sanitizer `_sanitize` of `src/app.py` (lines 13-23):
numpy arrays and pandas Series/Index are converted via `tolist` (with no
further recursion into the result), dicts recurse into values, lists and
tuples recurse elementwise into a list, every other value is returned
unchanged. -/
def _sanitize : PyVal → PyVal
  | .npArray xs => .pylist (toPyElemL xs)
  | .pdSeries xs => .pylist (toPyElemL xs)
  | .pdIndex xs => .pylist (toPyElemL xs)
  | .pydict kvs => .pydict (_sanitizeD kvs)
  | .pylist xs => .pylist (_sanitizeL xs)
  | .pytuple xs => .pylist (_sanitizeL xs)
  | v => v

/-- `_sanitize` mapped over a sequence. -/
def _sanitizeL : PyList → PyList
  | .nil => .nil
  | .cons v tl => .cons (_sanitize v) (_sanitizeL tl)

/-- `_sanitize` mapped over the values of a dict. -/
def _sanitizeD : PyDict → PyDict
  | .dnil => .dnil
  | .dcons k v tl => .dcons k (_sanitize v) (_sanitizeD tl)
end

mutual
/-- `npFree v` holds when no engine-native container or scalar (numpy
array/scalar, pandas Series/Index) occurs anywhere in `v`. -/
def npFree : PyVal → Bool
  | .npArray _ => false
  | .pdSeries _ => false
  | .pdIndex _ => false
  | .npFloat _ => false
  | .npInt _ => false
  | .pylist xs => npFreeL xs
  | .pytuple xs => npFreeL xs
  | .pydict kvs => npFreeD kvs
  | _ => true

/-- `npFree` over a sequence. -/
def npFreeL : PyList → Bool
  | .nil => true
  | .cons v tl => npFree v && npFreeL tl

/-- `npFree` over dict values. -/
def npFreeD : PyDict → Bool
  | .dnil => true
  | .dcons _ v tl => npFree v && npFreeD tl
end

mutual
/-- An element admissible inside a scalar-leaf engine container: a Python
or numpy scalar, or recursively such a (regular, numeric) nested array.
`tolist` maps exactly these to engine-free Python values. -/
def scalarArr : PyVal → Bool
  | .pynone => true
  | .pybool _ => true
  | .pyint _ => true
  | .pyfloat _ => true
  | .pystr _ => true
  | .npFloat _ => true
  | .npInt _ => true
  | .npArray xs => scalarArrL xs
  | _ => false

/-- `scalarArr` over a sequence. -/
def scalarArrL : PyList → Bool
  | .nil => true
  | .cons v tl => scalarArr v && scalarArrL tl
end

mutual
/-- `good v` holds when every engine-native container in `v` is scalar-leaf
(holds only scalars or nested numeric arrays) and no bare engine-native
scalar occurs outside such a container.  On such values `_sanitize`
produces an engine-free result. -/
def good : PyVal → Bool
  | .npArray xs => scalarArrL xs
  | .pdSeries xs => scalarArrL xs
  | .pdIndex xs => scalarArrL xs
  | .pydict kvs => goodD kvs
  | .pylist xs => goodL xs
  | .pytuple xs => goodL xs
  | .npFloat _ => false
  | .npInt _ => false
  | _ => true

/-- `good` over a sequence. -/
def goodL : PyList → Bool
  | .nil => true
  | .cons v tl => good v && goodL tl

/-- `good` over dict values. -/
def goodD : PyDict → Bool
  | .dnil => true
  | .dcons _ v tl => good v && goodD tl
end

/-- Token emitted by Python `json.dumps` for a float: with the default
`allow_nan=True` the float NaN is emitted as the bare token `NaN`; the
decimal rendering of finite floats is abstracted (no claim depends on it). -/
def floatTok : Option ℚ → String
  | none => "NaN"
  | some q => if q.den = 1 then toString q.num ++ ".0" else toString q

mutual
/-- Model of Python `json.dumps` with default options: `None`, booleans,
ints, floats (including numpy float scalars, which subclass Python float)
and strings serialize to their JSON tokens, lists and tuples to arrays,
dicts to objects; engine-native arrays, Series, Index and numpy integer
scalars are not serializable (TypeError, modelled as `none`). -/
def jsonDumps : PyVal → Option String
  | .pynone => some "null"
  | .pybool b => some (if b then "true" else "false")
  | .pyint n => some (toString n)
  | .pyfloat f => some (floatTok f)
  | .npFloat f => some (floatTok f)
  | .pystr s => some ("\"" ++ s ++ "\"")
  | .pylist xs => (jsonDumpsL xs).map (fun b => "[" ++ b ++ "]")
  | .pytuple xs => (jsonDumpsL xs).map (fun b => "[" ++ b ++ "]")
  | .pydict kvs => (jsonDumpsD kvs).map (fun b => "\x7b" ++ b ++ "\x7d")
  | _ => none

/-- Comma-joined serialization of a sequence. -/
def jsonDumpsL : PyList → Option String
  | .nil => some ""
  | .cons v .nil => jsonDumps v
  | .cons v tl => do pure ((← jsonDumps v) ++ ", " ++ (← jsonDumpsL tl))

/-- Comma-joined serialization of dict entries. -/
def jsonDumpsD : PyDict → Option String
  | .dnil => some ""
  | .dcons k v .dnil => (jsonDumps v).map (fun s => "\"" ++ k ++ "\": " ++ s)
  | .dcons k v tl => do
    pure ("\"" ++ k ++ "\": " ++ (← jsonDumps v) ++ ", " ++ (← jsonDumpsD tl))
end

/-- Round-half-to-even of a rational to an integer (the rounding used by
Python float formatting and by numpy/pandas `round`). -/
def roundHE (x : ℚ) : ℤ :=
  let f := Int.floor x
  let frac := x - (f : ℚ)
  if frac < 1/2 then f
  else if 1/2 < frac then f + 1
  else if f % 2 = 0 then f else f + 1

/-- `round(x, 2)` on an exact rational. -/
def roundQ2 (x : ℚ) : ℚ := (roundHE (100 * x) : ℚ) / 100

/-- Floor of `c / sqrt D` for `0 ≤ c` and `0 < D`, computed exactly with
integer arithmetic: with `c = p/q` and `D = a/b`, the value equals
`p * sqrt (a*b) / (q*a)` and its floor is `Nat.sqrt (p*p*a*b) / (q*a)`. -/
def floorDivSqrtNonneg (c D : ℚ) : ℤ :=
  let p := c.num.toNat
  let q := c.den
  let a := D.num.toNat
  let b := D.den
  (Nat.sqrt (p * p * a * b) / (q * a) : ℕ)

/-- Floor of `c / sqrt D` for `0 < D` (any sign of `c`). -/
def floorDivSqrt (c D : ℚ) : ℤ :=
  if 0 ≤ c then floorDivSqrtNonneg c D
  else
    let f := floorDivSqrtNonneg (-c) D
    if c * c = (f : ℚ) * (f : ℚ) * D then -f else -f - 1

/-- `round(c / sqrt D, 3)` computed exactly for `0 < D`: the float stored by
`corr_matrix.round(3)` is modelled as the exact 3-decimal half-to-even
rounding of the correlation value. -/
def roundHE3DivSqrt (c D : ℚ) : ℚ :=
  let j := floorDivSqrt (2000 * c) D
  let exact :=
    (2000 * c) * (2000 * c) = (j : ℚ) * (j : ℚ) * D ∧ (0 ≤ j ↔ 0 ≤ c)
  let k : ℤ :=
    if decide exact then
      if j % 2 = 0 then j / 2
      else
        let n := (j - 1) / 2
        if n % 2 = 0 then n else n + 1
    else
      if j % 2 = 0 then j / 2 else (j - 1) / 2 + 1
  (k : ℚ) / 1000

/-- Mean of a list of exact floats; `none` (NaN) on the empty list. -/
def meanList (l : List ℚ) : Option ℚ :=
  if l = [] then none else some (l.sum / l.length)

/-- Sample variance (ddof = 1) of a list; `none` (NaN) for fewer than two
elements. -/
def sampleVar (l : List ℚ) : Option ℚ :=
  if l.length < 2 then none
  else
    match meanList l with
    | none => none
    | some m => some ((l.map (fun x => (x - m) * (x - m))).sum / (l.length - 1 : ℕ))

/-- The pandas quantile with linear interpolation between closest ranks
(`interpolation='linear'`, the default): sort the values, take the
fractional position `q * (n - 1)` and interpolate; NaN (`none`) when there
are no values. -/
def pandasQuantile (l : List ℚ) (q : ℚ) : Option ℚ :=
  if l = [] then none
  else
    let s := l.insertionSort (fun a b => a ≤ b)
    let n := s.length
    let pos : ℚ := q * ((n : ℚ) - 1)
    let i : ℕ := (Int.floor pos).toNat
    let frac : ℚ := pos - (Int.floor pos : ℚ)
    some (s.getD i 0 + frac * (s.getD (i + 1) 0 - s.getD i 0))

/-- Median computed independently, following the claim: fully sort the
values and take the middle element, or the mean of the two middle elements
for an even count. -/
def medianViaSort (l : List ℚ) : Option ℚ :=
  if l = [] then none
  else
    let s := l.insertionSort (fun a b => a ≤ b)
    let n := s.length
    if n % 2 = 1 then some (s.getD (n / 2) 0)
    else some ((s.getD (n / 2 - 1) 0 + s.getD (n / 2) 0) / 2)

/-- `Series.value_counts()`: the distinct non-missing values with their
occurrence counts, ordered by decreasing count (NaN excluded). -/
def valueCounts (cells : List Cell) : List (Cell × ℕ) :=
  let keys := (cells.filter (fun c => decide (c ≠ Cell.na))).dedup
  let pairs := keys.map (fun k => (k, cells.count k))
  pairs.insertionSort (fun x y => y.2 ≤ x.2)

/-- Ordering of group keys used by `groupby(sort=True)` on a column of
homogeneous values: numbers numerically, strings lexicographically (a
mixed-type column would raise on comparison; numbers are placed first,
which no claim observes). -/
def cellLeB : Cell → Cell → Bool
  | .num a, .num b => decide (a ≤ b)
  | .str a, .str b => decide (a ≤ b)
  | .num _, .str _ => true
  | .str _, .num _ => false
  | .na, _ => true
  | _, .na => false

/-- Descending comparison on optional means used by
`sort_values(ascending=False)`: larger means first, NaN last. -/
def meanGeB : Option ℚ → Option ℚ → Bool
  | some a, some b => decide (b ≤ a)
  | some _, none => true
  | none, some _ => false
  | none, none => true

/-- The fixed list of columns dropped at load when present. -/
def columnsToDrop : List String := ["battery_wh", "charger_watts", "psu_watts"]

/-- NaN-propagating evaluation of the per-row performance score
`(cpu_tier + gpu_tier + cpu_cores/4 + vram_gb/2 + ram_gb/8) * cpu_boost_ghz`
on the numeric views of the six inputs: NaN anywhere gives NaN. -/
def perfCombine (t g c v m b : Option ℚ) : Option ℚ := do
  let t0 ← t
  let g0 ← g
  let c0 ← c
  let v0 ← v
  let m0 ← m
  let b0 ← b
  pure ((t0 + g0 + c0 / 4 + v0 / 2 + m0 / 8) * b0)

/-- Cell holding an optional numeric value (NaN for `none`). -/
def cellOfOpt : Option ℚ → Cell
  | none => Cell.na
  | some q => Cell.num q

/-- Row-level evaluation of the performance-score expression: raises
TypeError when a string is involved, otherwise propagates NaN. -/
def perfRow (r : Row) : Except String Row := do
  let t ← toNumE (r "cpu_tier")
  let g ← toNumE (r "gpu_tier")
  let c ← toNumE (r "cpu_cores")
  let v ← toNumE (r "vram_gb")
  let m ← toNumE (r "ram_gb")
  let b ← toNumE (r "cpu_boost_ghz")
  pure (updateRow r "performance_score" (cellOfOpt (perfCombine t g c v m b)))

/-- The column-drop step of the loader: remove the fixed columns when
present (row data untouched; dropped columns are no longer observable). -/
def dropColumns (df0 : DataFrame) : DataFrame :=
  ⟨df0.cols.filter (fun c => decide (c ∉ columnsToDrop)), df0.rows⟩

/-- The `performance_score` construction on the dropped frame: KeyError on
a missing input column, then the row-wise arithmetic, then the new column
appended to the schema. -/
def buildProcessed (dropped : DataFrame) : Except String DataFrame := do
  let _ ← getCol dropped "cpu_tier"
  let _ ← getCol dropped "gpu_tier"
  let _ ← getCol dropped "cpu_cores"
  let _ ← getCol dropped "vram_gb"
  let _ ← getCol dropped "ram_gb"
  let _ ← getCol dropped "cpu_boost_ghz"
  let newRows ← mapME perfRow dropped.rows
  pure ⟨if "performance_score" ∈ dropped.cols then dropped.cols
        else dropped.cols ++ ["performance_score"], newRows⟩

/-- `load_and_preprocess_data` of `src/app.py` (lines 51-69) applied to the
result of `pd.read_csv` (`none` when reading already failed): drop the
fixed columns when present, evaluate and append `performance_score`
(KeyError on a missing input column, TypeError on string data), and return
`None` when any step raises. -/
def load_and_preprocess_data (raw : Option DataFrame) : Option DataFrame :=
  match raw with
  | none => none
  | some df0 =>
    match buildProcessed (dropColumns df0) with
    | .ok df => some df
    | .error _ => none

/-- An exact statistic value: a rational, NaN, or the (irrational) square
root of a rational, used for the standard deviation. -/
inductive SVal where
  | nanv
  | qv (q : ℚ)
  | sqrtv (q : ℚ)
deriving DecidableEq

/-- SVal of an optional rational (NaN for `none`). -/
def svalOf : Option ℚ → SVal
  | none => SVal.nanv
  | some q => SVal.qv q

/-- The `describe()` summary of a numerical column. -/
structure NumDescribe where
  count : ℕ
  mean : SVal
  std : SVal
  minv : SVal
  p25 : SVal
  p50 : SVal
  p75 : SVal
  maxv : SVal
deriving DecidableEq

/-- The record built for a numerical column: the describe summary plus the
explicit Q1/Q2/Q3 quartile triple (each NaN, i.e. `none`, when the column
has no non-missing values). -/
structure NumStat where
  describe : NumDescribe
  q1 : Option ℚ
  q2 : Option ℚ
  q3 : Option ℚ
deriving DecidableEq

/-- The record built for a categorical column: the object describe summary
(count, unique, top, freq), the top-10 value counts and the number of
distinct values. -/
structure CatStat where
  count : ℕ
  unique : ℕ
  top : Option Cell
  freq : Option ℕ
  valueCountsTop : List (Cell × ℕ)
  totalUnique : ℕ
deriving DecidableEq

/-- A per-column statistics record, tagged by column type. -/
inductive ColStat where
  | categorical (s : CatStat)
  | numerical (s : NumStat)
deriving DecidableEq

/-- The fixed list of categorical columns of `get_descriptive_statistics`. -/
def categoricalCols : List String :=
  ["device_type", "brand", "model", "os", "form_factor", "cpu_brand",
   "cpu_model", "gpu_brand", "gpu_model", "storage_type", "display_type",
   "resolution", "wifi"]

/-- The fixed list of numerical columns of `get_descriptive_statistics`. -/
def numericalCols : List String :=
  ["release_year", "cpu_tier", "cpu_cores", "cpu_threads", "cpu_base_ghz",
   "cpu_boost_ghz", "gpu_tier", "vram_gb", "ram_gb", "storage_gb",
   "storage_drive_count", "display_size_in", "refresh_hz", "bluetooth",
   "weight_kg", "warranty_months", "price", "performance_score"]

/-- Statistics of one categorical column (describe + value counts). -/
def catStatOf (cells : List Cell) : CatStat :=
  let vc := valueCounts cells
  { count := cells.countP (fun c => decide (c ≠ Cell.na))
    unique := vc.length
    top := vc.head?.map Prod.fst
    freq := vc.head?.map Prod.snd
    valueCountsTop := vc.take 10
    totalUnique := vc.length }

/-- Statistics of one numerical column; raises TypeError when the column
holds string data (as `describe`/`quantile` do on object data). -/
def numStatOf (cells : List Cell) : Except String NumStat := do
  let vals ← mapME toNumE cells
  let nums := vals.reduceOption
  pure
    { describe :=
        { count := nums.length
          mean := svalOf (meanList nums)
          std := match sampleVar nums with
                 | none => SVal.nanv
                 | some v => SVal.sqrtv v
          minv := svalOf nums.min?
          p25 := svalOf (pandasQuantile nums (1/4))
          p50 := svalOf (pandasQuantile nums (1/2))
          p75 := svalOf (pandasQuantile nums (3/4))
          maxv := svalOf nums.max? }
      q1 := pandasQuantile nums (1/4)
      q2 := pandasQuantile nums (1/2)
      q3 := pandasQuantile nums (3/4) }

/-- The cells of a column that is known to be present. -/
def colCells (df : DataFrame) (c : String) : List Cell :=
  df.rows.map (fun r => r c)

/-- The non-missing numeric values of a list of cells. -/
def cellNums (cells : List Cell) : List ℚ :=
  cells.filterMap toNumSafe

/-- `get_descriptive_statistics` of `src/app.py` (lines 74-120): the empty
mapping when the table is unavailable; otherwise, for each hard-coded
categorical and numerical column present in the table, its statistics
record (a TypeError raised by quantile on string data propagates). -/
def get_descriptive_statistics (d : Option DataFrame) :
    Except String (List (String × ColStat)) :=
  match d with
  | none => .ok []
  | some df => do
    let catPart :=
      (categoricalCols.filter (fun c => decide (c ∈ df.cols))).map
        (fun c => (c, ColStat.categorical (catStatOf (colCells df c))))
    let numPart ←
      mapME
        (fun c => (numStatOf (colCells df c)).map (fun s => (c, ColStat.numerical s)))
        (numericalCols.filter (fun c => decide (c ∈ df.cols)))
    pure (catPart ++ numPart)

/-- Modelled from the spec: pandas `DataFrame.sample(n, random_state=seed)`
(library code, not in this repository) returns a deterministic
pseudo-random selection of `n` distinct rows for a fixed seed; the
particular permutation is irrelevant to every claim and is modelled as a
seed-dependent rotation followed by a prefix. -/
def pandas_sample {α : Type} (seed n : ℕ) (l : List α) : List α :=
  (l.rotate seed).take n

/-- The scatter trace data of chart 1: sampled performance scores and
prices, as raw cell lists (`tolist`). -/
structure ScatterFig where
  x : List Cell
  y : List Cell
deriving DecidableEq

/-- A bar-chart trace: category labels, mean values and the formatted
currency text labels. -/
structure BarFig where
  x : List Cell
  y : List (Option ℚ)
  textLabels : List String
deriving DecidableEq

/-- The box-plot traces: one `(name, prices)` trace per operating system. -/
structure BoxFig where
  traces : List (Cell × List Cell)
deriving DecidableEq

/-- The histogram trace: raw prices and the bin count. -/
structure HistFig where
  x : List Cell
  nbinsx : ℕ
deriving DecidableEq

/-- The pie trace: device-type labels, counts and slice colors. -/
structure PieFig where
  labels : List Cell
  values : List ℕ
  sliceColors : List String
deriving DecidableEq

/-- The heatmap trace: the rounded correlation matrix and its axis labels. -/
structure HeatFig where
  z : List (List (Option ℚ))
  axisCols : List String
deriving DecidableEq

/-- The line trace: release years and rounded mean prices. -/
structure LineFig where
  x : List ℚ
  y : List (Option ℚ)
deriving DecidableEq

/-- The stacked-bar traces: device types on the x axis and one percentage
series per GPU brand. -/
structure StackedFig where
  x : List Cell
  series : List (Cell × List ℚ)
deriving DecidableEq

/-- Currency label `f-string dollar val .0f` (half-even rounding to a whole
number of dollars; NaN formats as nan). -/
def dollarFmt : Option ℚ → String
  | none => "$nan"
  | some q => "$" ++ toString (roundHE q)

/-- Chart 1 (lines 131-162): sample `min(2000, len(data))` rows with fixed
seed 42, then take the `performance_score` and `price` columns. -/
def scatterChart (df : DataFrame) : Except String ScatterFig := do
  let n := min 2000 df.rows.length
  let sdf : DataFrame := ⟨df.cols, pandas_sample 42 n df.rows⟩
  let x ← getCol sdf "performance_score"
  let y ← getCol sdf "price"
  pure ⟨x, y⟩

/-- Group keys of `groupby` on a column: distinct non-missing values in
ascending key order. -/
def groupKeys (cells : List Cell) : List Cell :=
  ((cells.filter (fun c => decide (c ≠ Cell.na))).dedup).insertionSort
    (fun a b => cellLeB a b = true)

/-- Per-key mean aggregation of `groupby(key)[price].mean()` over the
zipped `(key cell, numeric price)` pairs (NaN prices skipped). -/
def groupMeans (keys : List Cell) (pairs : List (Cell × Option ℚ)) :
    List (Cell × Option ℚ) :=
  keys.map (fun k =>
    (k, meanList (pairs.filterMap (fun p => if p.1 = k then p.2 else none))))

/-- Chart 2 (lines 164-195): mean price per brand, sorted descending,
top 10, with whole-dollar text labels. -/
def barTopBrandsChart (df : DataFrame) : Except String BarFig := do
  let bcol ← getCol df "brand"
  let pcol ← getCol df "price"
  let prices ← mapME toNumE pcol
  let sorted := (groupMeans (groupKeys bcol) (bcol.zip prices)).insertionSort
    (fun a b => meanGeB a.2 b.2 = true)
  let top := sorted.take 10
  pure ⟨top.map Prod.fst, top.map Prod.snd, top.map (fun p => dollarFmt p.2)⟩

/-- Chart 3 (lines 197-227): price distributions for the 8 most frequent
operating systems, one trace per OS, raw price cells. -/
def boxPriceOsChart (df : DataFrame) : Except String BoxFig := do
  let ocol ← getCol df "os"
  let pcol ← getCol df "price"
  let osKeys := ((valueCounts ocol).take 8).map Prod.fst
  let pairs := ocol.zip pcol
  pure ⟨osKeys.map (fun o =>
    (o, pairs.filterMap (fun p => if p.1 = o then some p.2 else none)))⟩

/-- Chart 4 (lines 229-256): histogram of raw prices with 50 bins. -/
def histPriceChart (df : DataFrame) : Except String HistFig := do
  let pcol ← getCol df "price"
  pure ⟨pcol, 50⟩

/-- The fixed pie color palette. -/
def chartColors : List String :=
  ["#667eea", "#764ba2", "#f093fb", "#f5576c", "#4facfe", "#00f2fe"]

/-- Chart 5 (lines 258-287): full device-type distribution as a donut. -/
def pieDeviceTypeChart (df : DataFrame) : Except String PieFig := do
  let dcol ← getCol df "device_type"
  let vc := valueCounts dcol
  pure ⟨vc.map Prod.fst, vc.map Prod.snd, chartColors.take vc.length⟩

/-- The fixed list of numeric columns of the correlation heatmap. -/
def heatmapNumericCols : List String :=
  ["price", "performance_score", "cpu_cores", "cpu_threads", "ram_gb",
   "storage_gb", "vram_gb", "cpu_base_ghz", "cpu_boost_ghz", "release_year"]

/-- Pearson correlation of the pairwise-complete observations of two
columns, rounded half-even to 3 decimals; NaN (`none`) when there are no
complete pairs or one of the columns is degenerate. -/
def pearsonRound3 (pairs : List (ℚ × ℚ)) : Option ℚ :=
  match pairs with
  | [] => none
  | _ =>
    let n : ℚ := pairs.length
    let mx := (pairs.map Prod.fst).sum / n
    let my := (pairs.map Prod.snd).sum / n
    let sxy := (pairs.map (fun p => (p.1 - mx) * (p.2 - my))).sum
    let sxx := (pairs.map (fun p => (p.1 - mx) * (p.1 - mx))).sum
    let syy := (pairs.map (fun p => (p.2 - my) * (p.2 - my))).sum
    if sxx = 0 ∨ syy = 0 then none
    else some (roundHE3DivSqrt sxy (sxx * syy))

/-- Chart 6 (lines 289-324): correlation matrix over the fixed numeric
columns intersected with the present columns (TypeError on string data). -/
def heatmapCorrelationChart (df : DataFrame) : Except String HeatFig := do
  let avail := heatmapNumericCols.filter (fun c => decide (c ∈ df.cols))
  let colsData ← mapME (fun c => do
      let cells ← getCol df c
      mapME toNumE cells) avail
  let z := colsData.map (fun ci => colsData.map (fun cj =>
      pearsonRound3 ((ci.zip cj).filterMap (fun p =>
        match p.1, p.2 with
        | some a, some b => some (a, b)
        | _, _ => none))))
  pure ⟨z, avail⟩

/-- Chart 7 (lines 326-356): mean price per CPU brand, all brands, sorted
descending. -/
def barCpuBrandChart (df : DataFrame) : Except String BarFig := do
  let bcol ← getCol df "cpu_brand"
  let pcol ← getCol df "price"
  let prices ← mapME toNumE pcol
  let sorted := (groupMeans (groupKeys bcol) (bcol.zip prices)).insertionSort
    (fun a b => meanGeB a.2 b.2 = true)
  pure ⟨sorted.map Prod.fst, sorted.map Prod.snd,
        sorted.map (fun p => dollarFmt p.2)⟩

/-- The non-missing prices of the rows of one release year (the values
whose count and mean drive chart 8). -/
def yearPrices (df : DataFrame) (y : ℚ) : List ℚ :=
  df.rows.filterMap (fun r =>
    match r "release_year", r "price" with
    | Cell.num q, Cell.num p => if q = y then some p else none
    | _, _ => none)

/-- Chart 8 (lines 358-396): mean price and non-missing price count per
release year (ascending group keys), rounded to 2 decimals, keeping only
years with count at least 10. -/
def linePriceTrendChart (df : DataFrame) : Except String LineFig := do
  let ycol ← getCol df "release_year"
  let pcol ← getCol df "price"
  let ys ← mapME toNumE ycol
  let ps ← mapME toNumE pcol
  let pairs := ys.zip ps
  let years := ((pairs.filterMap Prod.fst).dedup).insertionSort
    (fun a b => a ≤ b)
  let entries := years.map (fun y =>
    let grp := pairs.filterMap (fun p => if p.1 = some y then p.2 else none)
    (y, (meanList grp).map roundQ2, grp.length))
  let kept := entries.filter (fun e => decide (10 ≤ e.2.2))
  pure ⟨kept.map (fun e => e.1), kept.map (fun e => e.2.1)⟩

/-- The top-5 GPU brands by row count (the index of
`value_counts().head(5)`). -/
def top5GpuBrands (df : DataFrame) : List Cell :=
  ((valueCounts (df.rows.map (fun r => r "gpu_brand"))).take 5).map Prod.fst

/-- Number of rows of one device type. -/
def deviceTypeTotal (df : DataFrame) (d : Cell) : ℕ :=
  df.rows.countP (fun r => decide (r "device_type" = d))

/-- Number of rows of one device type carrying one GPU brand. -/
def gpuDeviceCount (df : DataFrame) (d g : Cell) : ℕ :=
  df.rows.countP (fun r => decide (r "device_type" = d ∧ r "gpu_brand" = g))

/-- The percentage reported by chart 9 for device type `d` and GPU brand
`g`: `count / total_device * 100`, or 0 when the device type has no rows. -/
def gpuPct (df : DataFrame) (d g : Cell) : ℚ :=
  let total := deviceTypeTotal df d
  if 0 < total then (gpuDeviceCount df d g : ℚ) / (total : ℚ) * 100 else 0

/-- Chart 9 (lines 398-445): for the top-5 GPU brands and every device
type, the percentage of the device type rows carrying that brand; one
series per brand. -/
def stackedGpuDeviceChart (df : DataFrame) : Except String StackedFig := do
  let gcol ← getCol df "gpu_brand"
  let dcol ← getCol df "device_type"
  let gpuBrands := ((valueCounts gcol).take 5).map Prod.fst
  let deviceTypes := (valueCounts dcol).map Prod.fst
  pure ⟨deviceTypes,
        gpuBrands.map (fun g => (g, deviceTypes.map (fun d => gpuPct df d g)))⟩

/-- Embed a Lean list of Python values as a Python list. -/
def pyOfList : List PyVal → PyList
  | [] => PyList.nil
  | v :: l => PyList.cons v (pyOfList l)

/-- A cell as the Python value produced by `tolist`. -/
def pyOfCell : Cell → PyVal
  | Cell.str s => PyVal.pystr s
  | Cell.num q => PyVal.pyfloat (some q)
  | Cell.na => PyVal.pyfloat none

/-- The `to_plotly_json` document skeleton: a data block with the traces
and a layout block with the title. -/
def figDoc (traces : List PyVal) (title : String) : PyVal :=
  PyVal.pydict (PyDict.dcons "data" (PyVal.pylist (pyOfList traces))
    (PyDict.dcons "layout"
      (PyVal.pydict (PyDict.dcons "title" (PyVal.pystr title) PyDict.dnil))
      PyDict.dnil))

/-- `to_plotly_json` of the scatter figure. -/
def scatterToPy (f : ScatterFig) : PyVal :=
  figDoc
    [PyVal.pydict (PyDict.dcons "type" (PyVal.pystr "scatter")
      (PyDict.dcons "x" (PyVal.pylist (pyOfList (f.x.map pyOfCell)))
        (PyDict.dcons "y" (PyVal.pylist (pyOfList (f.y.map pyOfCell)))
          (PyDict.dcons "mode" (PyVal.pystr "markers") PyDict.dnil))))]
    "Price vs Performance Score"

/-- `to_plotly_json` of a bar figure. -/
def barToPy (f : BarFig) (title : String) : PyVal :=
  figDoc
    [PyVal.pydict (PyDict.dcons "type" (PyVal.pystr "bar")
      (PyDict.dcons "x" (PyVal.pylist (pyOfList (f.x.map pyOfCell)))
        (PyDict.dcons "y" (PyVal.pylist (pyOfList (f.y.map PyVal.pyfloat)))
          (PyDict.dcons "text"
            (PyVal.pylist (pyOfList (f.textLabels.map PyVal.pystr)))
            PyDict.dnil))))]
    title

/-- `to_plotly_json` of the box figure (one trace per OS). -/
def boxToPy (f : BoxFig) : PyVal :=
  figDoc
    (f.traces.map (fun t =>
      PyVal.pydict (PyDict.dcons "type" (PyVal.pystr "box")
        (PyDict.dcons "name" (pyOfCell t.1)
          (PyDict.dcons "y" (PyVal.pylist (pyOfList (t.2.map pyOfCell)))
            PyDict.dnil)))))
    "Price Distribution by Operating System"

/-- `to_plotly_json` of the histogram figure. -/
def histToPy (f : HistFig) : PyVal :=
  figDoc
    [PyVal.pydict (PyDict.dcons "type" (PyVal.pystr "histogram")
      (PyDict.dcons "x" (PyVal.pylist (pyOfList (f.x.map pyOfCell)))
        (PyDict.dcons "nbinsx" (PyVal.pyint f.nbinsx) PyDict.dnil)))]
    "Price Distribution"

/-- `to_plotly_json` of the pie figure. -/
def pieToPy (f : PieFig) : PyVal :=
  figDoc
    [PyVal.pydict (PyDict.dcons "type" (PyVal.pystr "pie")
      (PyDict.dcons "labels" (PyVal.pylist (pyOfList (f.labels.map pyOfCell)))
        (PyDict.dcons "values"
          (PyVal.pylist (pyOfList (f.values.map (fun n : ℕ => PyVal.pyint (n : ℤ)))))
          (PyDict.dcons "marker"
            (PyVal.pydict (PyDict.dcons "colors"
              (PyVal.pylist (pyOfList (f.sliceColors.map PyVal.pystr)))
              PyDict.dnil))
            PyDict.dnil))))]
    "Distribution of Device Types"

/-- `to_plotly_json` of the heatmap figure: `z` is the tolisted matrix,
while `text` is handed to plotly as the raw `corr_matrix.values` numpy
array (a 2-dimensional float array). -/
def heatToPy (f : HeatFig) : PyVal :=
  figDoc
    [PyVal.pydict (PyDict.dcons "type" (PyVal.pystr "heatmap")
      (PyDict.dcons "z"
        (PyVal.pylist (pyOfList (f.z.map (fun row =>
          PyVal.pylist (pyOfList (row.map PyVal.pyfloat))))))
        (PyDict.dcons "x"
          (PyVal.pylist (pyOfList (f.axisCols.map PyVal.pystr)))
          (PyDict.dcons "y"
            (PyVal.pylist (pyOfList (f.axisCols.map PyVal.pystr)))
            (PyDict.dcons "text"
              (PyVal.npArray (pyOfList (f.z.map (fun row =>
                PyVal.npArray (pyOfList (row.map PyVal.npFloat))))))
              PyDict.dnil)))))]
    "Correlation Matrix of Numeric Variables"

/-- `to_plotly_json` of the line figure. -/
def lineToPy (f : LineFig) : PyVal :=
  figDoc
    [PyVal.pydict (PyDict.dcons "type" (PyVal.pystr "scatter")
      (PyDict.dcons "x"
        (PyVal.pylist (pyOfList (f.x.map (fun q => PyVal.pyfloat (some q)))))
        (PyDict.dcons "y" (PyVal.pylist (pyOfList (f.y.map PyVal.pyfloat)))
          (PyDict.dcons "mode" (PyVal.pystr "lines+markers") PyDict.dnil))))]
    "Average Price Trend by Release Year"

/-- `to_plotly_json` of the stacked-bar figure (one trace per GPU brand). -/
def stackedToPy (f : StackedFig) : PyVal :=
  figDoc
    (f.series.map (fun s =>
      PyVal.pydict (PyDict.dcons "type" (PyVal.pystr "bar")
        (PyDict.dcons "name" (pyOfCell s.1)
          (PyDict.dcons "x" (PyVal.pylist (pyOfList (f.x.map pyOfCell)))
            (PyDict.dcons "y"
              (PyVal.pylist (pyOfList (s.2.map (fun q => PyVal.pyfloat (some q)))))
              PyDict.dnil))))))
    "GPU Brand Composition by Device Type"

/-- The nine chart identifiers, in construction order. -/
def chartIds : List String :=
  ["scatter_price_performance", "bar_top_brands", "box_price_os",
   "hist_price", "pie_device_type", "heatmap_correlation", "bar_cpu_brand",
   "line_price_trend", "stacked_gpu_device"]

/-- The body of the `try` block of `create_plotly_charts`: build all nine
figures and their sanitized serialization documents; the first raised
error aborts everything. -/
def buildAllCharts (df : DataFrame) : Except String (List (String × PyVal)) := do
  let f1 ← scatterChart df
  let f2 ← barTopBrandsChart df
  let f3 ← boxPriceOsChart df
  let f4 ← histPriceChart df
  let f5 ← pieDeviceTypeChart df
  let f6 ← heatmapCorrelationChart df
  let f7 ← barCpuBrandChart df
  let f8 ← linePriceTrendChart df
  let f9 ← stackedGpuDeviceChart df
  pure [("scatter_price_performance", _sanitize (scatterToPy f1)),
        ("bar_top_brands", _sanitize (barToPy f2 "Top 10 Brands with Highest Average Price")),
        ("box_price_os", _sanitize (boxToPy f3)),
        ("hist_price", _sanitize (histToPy f4)),
        ("pie_device_type", _sanitize (pieToPy f5)),
        ("heatmap_correlation", _sanitize (heatToPy f6)),
        ("bar_cpu_brand", _sanitize (barToPy f7 "Average Price by CPU Brand")),
        ("line_price_trend", _sanitize (lineToPy f8)),
        ("stacked_gpu_device", _sanitize (stackedToPy f9))]

/-- `create_plotly_charts` of `src/app.py` (lines 122-451): the empty
mapping when the table is unavailable or any step raises, otherwise the
mapping with all nine sanitized chart documents. -/
def create_plotly_charts (d : Option DataFrame) : List (String × PyVal) :=
  match d with
  | none => []
  | some df =>
    match buildAllCharts df with
    | .ok l => l
    | .error _ => []

/-- Inversion of bind in the `Except` monad. -/
theorem except_bind_ok {ε α β : Type} {e : Except ε α} {f : α → Except ε β} {c : β} :
    (e >>= f) = .ok c ↔ ∃ a, e = .ok a ∧ f a = .ok c := by
  cases e <;> simp [Bind.bind, Except.bind]

/-- Successful `mapME` results come elementwise from successful
applications. -/
theorem mapME_ok_mem {α β : Type} {f : α → Except String β} :
    ∀ {l : List α} {l2 : List β}, mapME f l = .ok l2 → ∀ b ∈ l2, ∃ a ∈ l, f a = .ok b := by
  intro l
  induction l with
  | nil =>
    intro l2 h b hb
    simp only [mapME] at h
    cases h
    simp at hb
  | cons a t ih =>
    intro l2 h b hb
    simp only [mapME] at h
    rcases except_bind_ok.mp h with ⟨b0, hb0, h2⟩
    rcases except_bind_ok.mp h2 with ⟨bs, hbs, h3⟩
    simp only [pure, Except.pure, Except.ok.injEq] at h3
    subst h3
    rcases List.mem_cons.mp hb with h4 | h4
    · exact ⟨a, List.mem_cons_self a t, h4 ▸ hb0⟩
    · rcases ih hbs b h4 with ⟨a2, ha2, hfa2⟩
      exact ⟨a2, List.mem_cons_of_mem a ha2, hfa2⟩

/-- Updating one column leaves the other columns unchanged. -/
theorem updateRow_ne (r : Row) (c : String) (v : Cell) {c2 : String} (h : c2 ≠ c) :
    updateRow r c v c2 = r c2 := by
  simp [updateRow, h]

/-- Updating one column sets that column. -/
theorem updateRow_self (r : Row) (c : String) (v : Cell) :
    updateRow r c v c = v := by
  simp [updateRow]

/-- Inversion for the numeric view: a numeric result comes from a numeric
cell. -/
theorem toNumE_ok_some {x : Cell} {t : ℚ} :
    toNumE x = .ok (some t) ↔ x = Cell.num t := by
  cases x <;> simp [toNumE]

/-- Inversion for the numeric view: a missing result comes from `na`. -/
theorem toNumE_ok_none {x : Cell} : toNumE x = .ok none ↔ x = Cell.na := by
  cases x <;> simp [toNumE]

/-- The performance-score combination on fully numeric inputs. -/
theorem perfCombine_some (t g c v m b : ℚ) :
    perfCombine (some t) (some g) (some c) (some v) (some m) (some b)
      = some ((t + g + c / 4 + v / 2 + m / 8) * b) := rfl

/-- The performance-score combination is `none` as soon as one input is. -/
theorem perfCombine_none {t g c v m b : Option ℚ}
    (h : t = none ∨ g = none ∨ c = none ∨ v = none ∨ m = none ∨ b = none) :
    perfCombine t g c v m b = none := by
  rcases h with h | h | h | h | h | h
  · subst h; rfl
  · subst h; cases t <;> rfl
  · subst h; cases t <;> cases g <;> rfl
  · subst h; cases t <;> cases g <;> cases c <;> rfl
  · subst h; cases t <;> cases g <;> cases c <;> cases v <;> rfl
  · subst h; cases t <;> cases g <;> cases c <;> cases v <;> cases m <;> rfl

/-- Claim C7: `get_descriptive_statistics` on an unavailable Table returns
exactly the empty mapping, and (being a total function there) raises no
exception past its boundary. -/
theorem stats_empty_on_unavailable :
    get_descriptive_statistics none = .ok [] := rfl

/-- Claim C1: `create_plotly_charts` is all-or-nothing: for every input it
returns either the mapping whose keys are exactly the nine chart
identifiers or the empty mapping, the unavailable Table gives the empty
mapping, and any error raised inside the construction gives the empty
mapping with no exception propagated. -/
theorem create_plotly_charts_all_or_nothing :
    (∀ d : Option DataFrame,
      create_plotly_charts d = [] ∨
        (create_plotly_charts d).map Prod.fst = chartIds) ∧
    create_plotly_charts none = [] ∧
    (∀ (df : DataFrame) (e : String), buildAllCharts df = .error e →
      create_plotly_charts (some df) = []) := by
  refine ⟨?_, rfl, ?_⟩
  · intro d
    match d with
    | none => exact Or.inl rfl
    | some df =>
      cases h : buildAllCharts df with
      | error e =>
        left
        simp [create_plotly_charts, h]
      | ok l =>
        right
        simp only [create_plotly_charts, h]
        unfold buildAllCharts at h
        rcases except_bind_ok.mp h with ⟨f1, h1, h⟩
        rcases except_bind_ok.mp h with ⟨f2, h2, h⟩
        rcases except_bind_ok.mp h with ⟨f3, h3, h⟩
        rcases except_bind_ok.mp h with ⟨f4, h4, h⟩
        rcases except_bind_ok.mp h with ⟨f5, h5, h⟩
        rcases except_bind_ok.mp h with ⟨f6, h6, h⟩
        rcases except_bind_ok.mp h with ⟨f7, h7, h⟩
        rcases except_bind_ok.mp h with ⟨f8, h8, h⟩
        rcases except_bind_ok.mp h with ⟨f9, h9, h⟩
        simp only [pure, Except.pure, Except.ok.injEq] at h
        subst h
        rfl
  · intro df e h
    simp [create_plotly_charts, h]

/-- A frame with no columns at all: the first chart construction raises
KeyError. -/
def dfNoCols : DataFrame := ⟨[], []⟩

/-- Witness for claim C1 at a concrete failing input: on a frame missing
the required columns the construction raises internally and the result is
exactly the empty mapping. -/
theorem create_plotly_charts_failure_witness :
    buildAllCharts dfNoCols = .error "KeyError: performance_score" ∧
    create_plotly_charts (some dfNoCols) = [] :=
  ⟨rfl, create_plotly_charts_all_or_nothing.2.2 dfNoCols
    "KeyError: performance_score" rfl⟩

/-- Claim C2: in every loaded Table, a row whose six inputs are all present
carries exactly the composite score, and a row with a missing input
carries a missing score. -/
theorem performance_score_spec :
    ∀ (raw : Option DataFrame) (df : DataFrame),
      load_and_preprocess_data raw = some df →
      ∀ r ∈ df.rows,
        (∀ t g c v m b : ℚ,
          r "cpu_tier" = Cell.num t → r "gpu_tier" = Cell.num g →
          r "cpu_cores" = Cell.num c → r "vram_gb" = Cell.num v →
          r "ram_gb" = Cell.num m → r "cpu_boost_ghz" = Cell.num b →
          r "performance_score" =
            Cell.num ((t + g + c / 4 + v / 2 + m / 8) * b)) ∧
        ((r "cpu_tier" = Cell.na ∨ r "gpu_tier" = Cell.na ∨
          r "cpu_cores" = Cell.na ∨ r "vram_gb" = Cell.na ∨
          r "ram_gb" = Cell.na ∨ r "cpu_boost_ghz" = Cell.na) →
          r "performance_score" = Cell.na) := by
  intro raw df hload r hr
  cases raw with
  | none => exact absurd hload (by simp [load_and_preprocess_data])
  | some df0 =>
    simp only [load_and_preprocess_data] at hload
    cases hb : buildProcessed (dropColumns df0) with
    | error e => rw [hb] at hload; cases hload
    | ok df2 =>
      rw [hb] at hload
      cases hload
      unfold buildProcessed at hb
      rcases except_bind_ok.mp hb with ⟨c1, _, hb⟩
      rcases except_bind_ok.mp hb with ⟨c2, _, hb⟩
      rcases except_bind_ok.mp hb with ⟨c3, _, hb⟩
      rcases except_bind_ok.mp hb with ⟨c4, _, hb⟩
      rcases except_bind_ok.mp hb with ⟨c5, _, hb⟩
      rcases except_bind_ok.mp hb with ⟨c6, _, hb⟩
      rcases except_bind_ok.mp hb with ⟨newRows, hrows, hb⟩
      simp only [pure, Except.pure, Except.ok.injEq] at hb
      subst hb
      simp only at hr
      rcases mapME_ok_mem hrows r hr with ⟨r0, _, hfr0⟩
      unfold perfRow at hfr0
      rcases except_bind_ok.mp hfr0 with ⟨tv, htv, hfr0⟩
      rcases except_bind_ok.mp hfr0 with ⟨gv, hgv, hfr0⟩
      rcases except_bind_ok.mp hfr0 with ⟨cv, hcv, hfr0⟩
      rcases except_bind_ok.mp hfr0 with ⟨vv, hvv, hfr0⟩
      rcases except_bind_ok.mp hfr0 with ⟨mv, hmv, hfr0⟩
      rcases except_bind_ok.mp hfr0 with ⟨bv, hbv, hfr0⟩
      simp only [pure, Except.pure, Except.ok.injEq] at hfr0
      subst hfr0
      have et : updateRow r0 "performance_score"
          (cellOfOpt (perfCombine tv gv cv vv mv bv)) "cpu_tier" = r0 "cpu_tier" :=
        updateRow_ne _ _ _ (by decide)
      have eg : updateRow r0 "performance_score"
          (cellOfOpt (perfCombine tv gv cv vv mv bv)) "gpu_tier" = r0 "gpu_tier" :=
        updateRow_ne _ _ _ (by decide)
      have ec : updateRow r0 "performance_score"
          (cellOfOpt (perfCombine tv gv cv vv mv bv)) "cpu_cores" = r0 "cpu_cores" :=
        updateRow_ne _ _ _ (by decide)
      have ev : updateRow r0 "performance_score"
          (cellOfOpt (perfCombine tv gv cv vv mv bv)) "vram_gb" = r0 "vram_gb" :=
        updateRow_ne _ _ _ (by decide)
      have em : updateRow r0 "performance_score"
          (cellOfOpt (perfCombine tv gv cv vv mv bv)) "ram_gb" = r0 "ram_gb" :=
        updateRow_ne _ _ _ (by decide)
      have eb : updateRow r0 "performance_score"
          (cellOfOpt (perfCombine tv gv cv vv mv bv)) "cpu_boost_ghz" = r0 "cpu_boost_ghz" :=
        updateRow_ne _ _ _ (by decide)
      have eps : updateRow r0 "performance_score"
          (cellOfOpt (perfCombine tv gv cv vv mv bv)) "performance_score" =
          cellOfOpt (perfCombine tv gv cv vv mv bv) :=
        updateRow_self _ _ _
      constructor
      · intro t g c v m b ht hg hc hv hm hbq
        rw [et] at ht
        rw [eg] at hg
        rw [ec] at hc
        rw [ev] at hv
        rw [em] at hm
        rw [eb] at hbq
        rw [ht] at htv
        rw [hg] at hgv
        rw [hc] at hcv
        rw [hv] at hvv
        rw [hm] at hmv
        rw [hbq] at hbv
        have htv2 : tv = some t := by simpa [toNumE] using htv.symm
        have hgv2 : gv = some g := by simpa [toNumE] using hgv.symm
        have hcv2 : cv = some c := by simpa [toNumE] using hcv.symm
        have hvv2 : vv = some v := by simpa [toNumE] using hvv.symm
        have hmv2 : mv = some m := by simpa [toNumE] using hmv.symm
        have hbv2 : bv = some b := by simpa [toNumE] using hbv.symm
        rw [eps, htv2, hgv2, hcv2, hvv2, hmv2, hbv2, perfCombine_some]
        rfl
      · intro hna
        rw [eps]
        have : perfCombine tv gv cv vv mv bv = none := by
          apply perfCombine_none
          rcases hna with h | h | h | h | h | h
          · rw [et] at h; rw [h] at htv
            exact Or.inl (by simpa [toNumE] using htv.symm)
          · rw [eg] at h; rw [h] at hgv
            exact Or.inr (Or.inl (by simpa [toNumE] using hgv.symm))
          · rw [ec] at h; rw [h] at hcv
            exact Or.inr (Or.inr (Or.inl (by simpa [toNumE] using hcv.symm)))
          · rw [ev] at h; rw [h] at hvv
            exact Or.inr (Or.inr (Or.inr (Or.inl (by simpa [toNumE] using hvv.symm))))
          · rw [em] at h; rw [h] at hmv
            exact Or.inr (Or.inr (Or.inr (Or.inr (Or.inl
              (by simpa [toNumE] using hmv.symm)))))
          · rw [eb] at h; rw [h] at hbv
            exact Or.inr (Or.inr (Or.inr (Or.inr (Or.inr
              (by simpa [toNumE] using hbv.symm)))))
        rw [this]
        rfl

/-- A concrete raw row with the six numeric inputs. -/
def rowW : Row := fun c =>
  if c = "cpu_tier" then Cell.num 2
  else if c = "gpu_tier" then Cell.num 3
  else if c = "cpu_cores" then Cell.num 8
  else if c = "vram_gb" then Cell.num 4
  else if c = "ram_gb" then Cell.num 16
  else if c = "cpu_boost_ghz" then Cell.num (7/2)
  else Cell.na

/-- A concrete raw frame holding `rowW`. -/
def dfRawW : DataFrame :=
  ⟨["cpu_tier", "gpu_tier", "cpu_cores", "vram_gb", "ram_gb", "cpu_boost_ghz"],
   [rowW]⟩

/-- The frame loaded from `dfRawW`. -/
def dfW : DataFrame :=
  match load_and_preprocess_data (some dfRawW) with
  | some df => df
  | none => dfNoCols

/-- The score the formula yields on the inputs of `rowW`. -/
def scoreW : ℚ := (2 + 3 + (8 : ℚ) / 4 + 4 / 2 + 16 / 8) * (7 / 2)

/-- Witness for claim C2 at a concrete input: the loaded row carries the
composite score computed by the formula, and that score is 77/2. -/
theorem performance_score_witness :
    updateRow rowW "performance_score" (Cell.num scoreW) "performance_score" =
      Cell.num ((2 + 3 + (8 : ℚ) / 4 + 4 / 2 + 16 / 8) * (7 / 2)) ∧
    scoreW = 77 / 2 := by
  refine ⟨?_, by norm_num [scoreW]⟩
  have h1 : load_and_preprocess_data (some dfRawW) = some dfW := rfl
  have h2 : updateRow rowW "performance_score" (Cell.num scoreW) ∈ dfW.rows := by
    have h3 : dfW.rows = [updateRow rowW "performance_score" (Cell.num scoreW)] := rfl
    rw [h3]
    exact List.mem_singleton.mpr rfl
  exact (performance_score_spec (some dfRawW) dfW h1 _ h2).1 2 3 8 4 16 (7/2)
    (by rfl) (by rfl) (by rfl) (by rfl) (by rfl) (by rfl)

mutual
/-- `tupleFree v` holds when no tuple occurs anywhere in `v` (tuples are
rewritten to lists by `_sanitize`, so a fixed point must be tuple-free). -/
def tupleFree : PyVal → Bool
  | .pytuple _ => false
  | .pylist xs => tupleFreeL xs
  | .pydict kvs => tupleFreeD kvs
  | .npArray xs => tupleFreeL xs
  | .pdSeries xs => tupleFreeL xs
  | .pdIndex xs => tupleFreeL xs
  | _ => true

/-- `tupleFree` over a sequence. -/
def tupleFreeL : PyList → Bool
  | .nil => true
  | .cons v tl => tupleFree v && tupleFreeL tl

/-- `tupleFree` over dict values. -/
def tupleFreeD : PyDict → Bool
  | .dnil => true
  | .dcons _ v tl => tupleFree v && tupleFreeD tl
end

mutual
/-- Values free of engine-native nodes and of tuples are fixed points of
`_sanitize`. -/
theorem sanitize_fix (v : PyVal) (h1 : npFree v = true) (h2 : tupleFree v = true) :
    _sanitize v = v := by
  cases v with
  | pylist xs =>
    have h3 := sanitizeL_fix xs (by simpa [npFree] using h1)
      (by simpa [tupleFree] using h2)
    simp [_sanitize, h3]
  | pydict kvs =>
    have h3 := sanitizeD_fix kvs (by simpa [npFree] using h1)
      (by simpa [tupleFree] using h2)
    simp [_sanitize, h3]
  | pytuple xs => simp [tupleFree] at h2
  | npArray xs => simp [npFree] at h1
  | pdSeries xs => simp [npFree] at h1
  | pdIndex xs => simp [npFree] at h1
  | npFloat f => simp [npFree] at h1
  | npInt n => simp [npFree] at h1
  | pynone => rfl
  | pybool b => rfl
  | pyint n => rfl
  | pyfloat f => rfl
  | pystr s => rfl

/-- Sequence version of `sanitize_fix`. -/
theorem sanitizeL_fix (xs : PyList) (h1 : npFreeL xs = true) (h2 : tupleFreeL xs = true) :
    _sanitizeL xs = xs := by
  cases xs with
  | nil => rfl
  | cons v tl =>
    simp only [npFreeL, Bool.and_eq_true] at h1
    simp only [tupleFreeL, Bool.and_eq_true] at h2
    simp [_sanitizeL, sanitize_fix v h1.1 h2.1, sanitizeL_fix tl h1.2 h2.2]

/-- Dict version of `sanitize_fix`. -/
theorem sanitizeD_fix (kvs : PyDict) (h1 : npFreeD kvs = true) (h2 : tupleFreeD kvs = true) :
    _sanitizeD kvs = kvs := by
  cases kvs with
  | dnil => rfl
  | dcons k v tl =>
    simp only [npFreeD, Bool.and_eq_true] at h1
    simp only [tupleFreeD, Bool.and_eq_true] at h2
    simp [_sanitizeD, sanitize_fix v h1.1 h2.1, sanitizeD_fix tl h1.2 h2.2]
end

mutual
/-- `tolist` on a scalar-leaf element yields an engine-free, tuple-free
value. -/
theorem toPyElem_pure (v : PyVal) (h : scalarArr v = true) :
    (npFree (toPyElem v) && tupleFree (toPyElem v)) = true := by
  cases v with
  | npFloat f => rfl
  | npInt n => rfl
  | npArray xs =>
    have h3 := toPyElemL_pure xs (by simpa [scalarArr] using h)
    simp only [Bool.and_eq_true] at h3
    simp [toPyElem, npFree, tupleFree, h3.1, h3.2]
  | pynone => rfl
  | pybool b => rfl
  | pyint n => rfl
  | pyfloat f => rfl
  | pystr s => rfl
  | pylist xs => simp [scalarArr] at h
  | pytuple xs => simp [scalarArr] at h
  | pydict kvs => simp [scalarArr] at h
  | pdSeries xs => simp [scalarArr] at h
  | pdIndex xs => simp [scalarArr] at h

/-- Sequence version of `toPyElem_pure`. -/
theorem toPyElemL_pure (xs : PyList) (h : scalarArrL xs = true) :
    (npFreeL (toPyElemL xs) && tupleFreeL (toPyElemL xs)) = true := by
  cases xs with
  | nil => rfl
  | cons v tl =>
    simp only [scalarArrL, Bool.and_eq_true] at h
    have h1 := toPyElem_pure v h.1
    have h2 := toPyElemL_pure tl h.2
    simp only [Bool.and_eq_true] at h1 h2
    simp [toPyElemL, npFreeL, tupleFreeL, h1.1, h1.2, h2.1, h2.2]
end

mutual
/-- On a `good` value, `_sanitize` yields an engine-free, tuple-free
value. -/
theorem sanitize_pure (v : PyVal) (h : good v = true) :
    (npFree (_sanitize v) && tupleFree (_sanitize v)) = true := by
  cases v with
  | npArray xs =>
    have h3 := toPyElemL_pure xs (by simpa [good] using h)
    simp only [Bool.and_eq_true] at h3
    simp [_sanitize, npFree, tupleFree, h3.1, h3.2]
  | pdSeries xs =>
    have h3 := toPyElemL_pure xs (by simpa [good] using h)
    simp only [Bool.and_eq_true] at h3
    simp [_sanitize, npFree, tupleFree, h3.1, h3.2]
  | pdIndex xs =>
    have h3 := toPyElemL_pure xs (by simpa [good] using h)
    simp only [Bool.and_eq_true] at h3
    simp [_sanitize, npFree, tupleFree, h3.1, h3.2]
  | pydict kvs =>
    have h3 := sanitizeD_pure kvs (by simpa [good] using h)
    simp only [Bool.and_eq_true] at h3
    simp [_sanitize, npFree, tupleFree, h3.1, h3.2]
  | pylist xs =>
    have h3 := sanitizeL_pure xs (by simpa [good] using h)
    simp only [Bool.and_eq_true] at h3
    simp [_sanitize, npFree, tupleFree, h3.1, h3.2]
  | pytuple xs =>
    have h3 := sanitizeL_pure xs (by simpa [good] using h)
    simp only [Bool.and_eq_true] at h3
    simp [_sanitize, npFree, tupleFree, h3.1, h3.2]
  | npFloat f => simp [good] at h
  | npInt n => simp [good] at h
  | pynone => rfl
  | pybool b => rfl
  | pyint n => rfl
  | pyfloat f => rfl
  | pystr s => rfl

/-- Sequence version of `sanitize_pure`. -/
theorem sanitizeL_pure (xs : PyList) (h : goodL xs = true) :
    (npFreeL (_sanitizeL xs) && tupleFreeL (_sanitizeL xs)) = true := by
  cases xs with
  | nil => rfl
  | cons v tl =>
    simp only [goodL, Bool.and_eq_true] at h
    have h1 := sanitize_pure v h.1
    have h2 := sanitizeL_pure tl h.2
    simp only [Bool.and_eq_true] at h1 h2
    simp [_sanitizeL, npFreeL, tupleFreeL, h1.1, h1.2, h2.1, h2.2]

/-- Dict version of `sanitize_pure`. -/
theorem sanitizeD_pure (kvs : PyDict) (h : goodD kvs = true) :
    (npFreeD (_sanitizeD kvs) && tupleFreeD (_sanitizeD kvs)) = true := by
  cases kvs with
  | dnil => rfl
  | dcons k v tl =>
    simp only [goodD, Bool.and_eq_true] at h
    have h1 := sanitize_pure v h.1
    have h2 := sanitizeD_pure tl h.2
    simp only [Bool.and_eq_true] at h1 h2
    simp [_sanitizeD, npFreeD, tupleFreeD, h1.1, h1.2, h2.1, h2.2]
end

/-- On a `good` value `_sanitize` yields an engine-free value. -/
theorem npFree_sanitize_of_good (v : PyVal) (h : good v = true) :
    npFree (_sanitize v) = true := by
  have h2 := sanitize_pure v h
  simp only [Bool.and_eq_true] at h2
  exact h2.1

/-- An object-dtype numpy array holding a dict that itself holds a numpy
array: `np.array([dict(a=np.array([1.0]))])`. -/
def vNested : PyVal :=
  PyVal.npArray (PyList.cons
    (PyVal.pydict (PyDict.dcons "a"
      (PyVal.npArray (PyList.cons (PyVal.pyfloat (some 1)) PyList.nil))
      PyDict.dnil))
    PyList.nil)

/-- Counterexample to claim C10 as stated: `_sanitize` is not idempotent on
every value built from the handled shapes; on `vNested` the first
application only unwraps the outer array (`tolist` returns the stored dict
unconverted and `_sanitize` does not recurse into the result), so a second
application changes the value again. -/
theorem sanitize_not_idempotent :
    _sanitize (_sanitize vNested) ≠ _sanitize vNested ∧
    _sanitize vNested =
      PyVal.pylist (PyList.cons
        (PyVal.pydict (PyDict.dcons "a"
          (PyVal.npArray (PyList.cons (PyVal.pyfloat (some 1)) PyList.nil))
          PyDict.dnil))
        PyList.nil) := by
  constructor
  · decide
  · decide

/-- Claim C10 (amended): `_sanitize` is idempotent on every value whose
engine-native containers are scalar-leaf and which holds no bare
engine-native scalar; equivalently, on such values the output of
`_sanitize` is one of its fixed points. -/
theorem sanitize_idempotent_on_good (v : PyVal) (h : good v = true) :
    _sanitize (_sanitize v) = _sanitize v := by
  have h2 := sanitize_pure v h
  simp only [Bool.and_eq_true] at h2
  exact sanitize_fix _ h2.1 h2.2

/-- Witness for the amended claim C10 at a concrete input: a numeric numpy
array containing a NaN entry. -/
theorem sanitize_idempotent_witness :
    _sanitize (_sanitize (PyVal.npArray
        (PyList.cons (PyVal.pyfloat none) PyList.nil))) =
      _sanitize (PyVal.npArray (PyList.cons (PyVal.pyfloat none) PyList.nil)) :=
  sanitize_idempotent_on_good _ (by decide)

/-- Counterexample to claim C3 as stated: a NaN numeric entry does not
serialize to JSON `null` - both bare and inside a sanitized Series it is
emitted as the token `NaN`. -/
theorem nan_not_serialized_as_null :
    jsonDumps (_sanitize (PyVal.pyfloat none)) = some "NaN" ∧
    jsonDumps (_sanitize (PyVal.pyfloat none)) ≠ some "null" ∧
    jsonDumps (_sanitize (PyVal.pdSeries (PyList.cons (PyVal.pyfloat (some 1))
      (PyList.cons (PyVal.pyfloat none) PyList.nil)))) = some "[1.0, NaN]" := by
  refine ⟨rfl, ?_, rfl⟩
  decide

/-- Claim C3 (amended): the serialization layer maps a missing/NaN numeric
entry to the bare unquoted token `NaN` (the Python `json` default with
`allow_nan=True`), never to `null`, never to a quoted string and never to
an error; every float serializes successfully to its token. -/
theorem nan_serializes_as_token (f : Option ℚ) :
    jsonDumps (_sanitize (PyVal.pyfloat f)) = some (floatTok f) ∧
    floatTok none = "NaN" ∧
    ("NaN" : String) ≠ "null" ∧
    ∀ s : String, floatTok none ≠ "\"" ++ s ++ "\"" := by
  refine ⟨rfl, rfl, by decide, ?_⟩
  intro s h
  have h3 := congrArg String.data h
  rw [show floatTok none = "NaN" from rfl] at h3
  rw [String.data_append, String.data_append] at h3
  rw [show ("NaN" : String).data = ['N', 'a', 'N'] from rfl] at h3
  rw [show ("\"" : String).data = ['"'] from rfl] at h3
  simp only [List.cons_append, List.nil_append] at h3
  injection h3 with hhead _
  exact absurd hhead (by decide)

/-- A list of good values embeds to a good sequence. -/
theorem good_pyOfList {l : List PyVal} (h : ∀ v ∈ l, good v = true) :
    goodL (pyOfList l) = true := by
  induction l with
  | nil => rfl
  | cons a t ih =>
    simp only [pyOfList, goodL, Bool.and_eq_true]
    exact ⟨h a (List.mem_cons_self a t), ih (fun v hv => h v (List.mem_cons_of_mem a hv))⟩

/-- Mapped form of `good_pyOfList`. -/
theorem good_pyOfList_map {α : Type} (g : α → PyVal) (hg : ∀ a, good (g a) = true)
    (l : List α) : goodL (pyOfList (l.map g)) = true := by
  apply good_pyOfList
  intro v hv
  rcases List.mem_map.mp hv with ⟨a, _, rfl⟩
  exact hg a

/-- A list of scalar-leaf values embeds to a scalar-leaf sequence. -/
theorem scalarArr_pyOfList {l : List PyVal} (h : ∀ v ∈ l, scalarArr v = true) :
    scalarArrL (pyOfList l) = true := by
  induction l with
  | nil => rfl
  | cons a t ih =>
    simp only [pyOfList, scalarArrL, Bool.and_eq_true]
    exact ⟨h a (List.mem_cons_self a t), ih (fun v hv => h v (List.mem_cons_of_mem a hv))⟩

/-- Mapped form of `scalarArr_pyOfList`. -/
theorem scalarArr_pyOfList_map {α : Type} (g : α → PyVal)
    (hg : ∀ a, scalarArr (g a) = true) (l : List α) :
    scalarArrL (pyOfList (l.map g)) = true := by
  apply scalarArr_pyOfList
  intro v hv
  rcases List.mem_map.mp hv with ⟨a, _, rfl⟩
  exact hg a

/-- Cells embed to good Python scalars. -/
theorem good_pyOfCell (c : Cell) : good (pyOfCell c) = true := by
  cases c <;> rfl

/-- A figure document over good traces is good. -/
theorem good_figDoc {traces : List PyVal} (title : String)
    (h : ∀ v ∈ traces, good v = true) : good (figDoc traces title) = true := by
  simp [figDoc, good, goodD, good_pyOfList h]

/-- The scatter figure document is good. -/
theorem good_scatterToPy (f : ScatterFig) : good (scatterToPy f) = true := by
  apply good_figDoc
  intro v hv
  simp only [List.mem_singleton] at hv
  subst hv
  simp [good, goodD, good_pyOfList_map pyOfCell good_pyOfCell]

/-- A bar figure document is good. -/
theorem good_barToPy (f : BarFig) (title : String) : good (barToPy f title) = true := by
  apply good_figDoc
  intro v hv
  simp only [List.mem_singleton] at hv
  subst hv
  simp [good, goodD, good_pyOfList_map pyOfCell good_pyOfCell,
    good_pyOfList_map PyVal.pyfloat (fun _ => rfl),
    good_pyOfList_map PyVal.pystr (fun _ => rfl)]

/-- The box figure document is good. -/
theorem good_boxToPy (f : BoxFig) : good (boxToPy f) = true := by
  apply good_figDoc
  intro v hv
  rcases List.mem_map.mp hv with ⟨t, _, rfl⟩
  simp [good, goodD, good_pyOfCell, good_pyOfList_map pyOfCell good_pyOfCell]

/-- The histogram figure document is good. -/
theorem good_histToPy (f : HistFig) : good (histToPy f) = true := by
  apply good_figDoc
  intro v hv
  simp only [List.mem_singleton] at hv
  subst hv
  simp [good, goodD, good_pyOfList_map pyOfCell good_pyOfCell]

/-- The pie figure document is good. -/
theorem good_pieToPy (f : PieFig) : good (pieToPy f) = true := by
  apply good_figDoc
  intro v hv
  simp only [List.mem_singleton] at hv
  subst hv
  simp only [good, goodD, Bool.true_and, Bool.and_true, Bool.and_eq_true]
  exact ⟨good_pyOfList_map pyOfCell good_pyOfCell _,
         good_pyOfList_map (fun n : ℕ => PyVal.pyint (n : ℤ)) (fun _ => rfl) _,
         good_pyOfList_map PyVal.pystr (fun _ => rfl) _⟩

/-- The heatmap figure document is good: its `z` block is plain nested
lists and its `text` block is a scalar-leaf two-dimensional numpy array. -/
theorem good_heatToPy (f : HeatFig) : good (heatToPy f) = true := by
  apply good_figDoc
  intro v hv
  simp only [List.mem_singleton] at hv
  subst hv
  simp [good, goodD,
    good_pyOfList_map
      (fun row : List (Option ℚ) => PyVal.pylist (pyOfList (row.map PyVal.pyfloat)))
      (fun row => by simp [good, good_pyOfList_map PyVal.pyfloat (fun _ => rfl)]),
    good_pyOfList_map PyVal.pystr (fun _ => rfl),
    scalarArr_pyOfList_map
      (fun row : List (Option ℚ) => PyVal.npArray (pyOfList (row.map PyVal.npFloat)))
      (fun row => by
        simp [scalarArr, scalarArr_pyOfList_map PyVal.npFloat (fun _ => rfl)])]

/-- The line figure document is good. -/
theorem good_lineToPy (f : LineFig) : good (lineToPy f) = true := by
  apply good_figDoc
  intro v hv
  simp only [List.mem_singleton] at hv
  subst hv
  simp [good, goodD,
    good_pyOfList_map (fun q : ℚ => PyVal.pyfloat (some q)) (fun _ => rfl),
    good_pyOfList_map PyVal.pyfloat (fun _ => rfl)]

/-- The stacked-bar figure document is good. -/
theorem good_stackedToPy (f : StackedFig) : good (stackedToPy f) = true := by
  apply good_figDoc
  intro v hv
  rcases List.mem_map.mp hv with ⟨s, _, rfl⟩
  simp [good, goodD, good_pyOfCell,
    good_pyOfList_map pyOfCell good_pyOfCell,
    good_pyOfList_map (fun q : ℚ => PyVal.pyfloat (some q)) (fun _ => rfl)]

/-- Claim C9: after the serialization layer, every chart document in the
`create_plotly_charts` output is free of engine-native wrapper types
(numpy arrays/scalars, pandas Series/Index) - in particular all its trace
data arrays hold only plain values. -/
theorem charts_json_primitive_only (d : Option DataFrame) :
    ((create_plotly_charts d).map Prod.snd).all npFree = true := by
  match d with
  | none => rfl
  | some df =>
    cases h : buildAllCharts df with
    | error e => simp [create_plotly_charts, h]
    | ok l =>
      simp only [create_plotly_charts, h]
      unfold buildAllCharts at h
      rcases except_bind_ok.mp h with ⟨f1, h1, h⟩
      rcases except_bind_ok.mp h with ⟨f2, h2, h⟩
      rcases except_bind_ok.mp h with ⟨f3, h3, h⟩
      rcases except_bind_ok.mp h with ⟨f4, h4, h⟩
      rcases except_bind_ok.mp h with ⟨f5, h5, h⟩
      rcases except_bind_ok.mp h with ⟨f6, h6, h⟩
      rcases except_bind_ok.mp h with ⟨f7, h7, h⟩
      rcases except_bind_ok.mp h with ⟨f8, h8, h⟩
      rcases except_bind_ok.mp h with ⟨f9, h9, h⟩
      simp only [pure, Except.pure, Except.ok.injEq] at h
      subst h
      simp only [List.map_cons, List.map_nil, List.all_cons, List.all_nil,
        Bool.and_eq_true, and_true]
      exact ⟨npFree_sanitize_of_good _ (good_scatterToPy f1),
             npFree_sanitize_of_good _ (good_barToPy f2 _),
             npFree_sanitize_of_good _ (good_boxToPy f3),
             npFree_sanitize_of_good _ (good_histToPy f4),
             npFree_sanitize_of_good _ (good_pieToPy f5),
             npFree_sanitize_of_good _ (good_heatToPy f6),
             npFree_sanitize_of_good _ (good_barToPy f7 _),
             npFree_sanitize_of_good _ (good_lineToPy f8),
             npFree_sanitize_of_good _ (good_stackedToPy f9)⟩

/-- The sample always has exactly `min n l.length` rows. -/
theorem pandas_sample_length {α : Type} (seed n : ℕ) (l : List α) :
    (pandas_sample seed n l).length = min n l.length := by
  simp [pandas_sample, List.length_take, List.length_rotate]

/-- Claim C8: the scatter chart is built from a sample of exactly
`min 2000 (number of rows)` rows - both trace arrays have that length -
and the construction is a deterministic function of the Table (the seeded
sampling is reproducible). -/
theorem scatter_sample_spec (df : DataFrame) (fig : ScatterFig)
    (h0 : scatterChart df = .ok fig) :
    fig.x.length = min 2000 df.rows.length ∧
    fig.y.length = min 2000 df.rows.length ∧
    ∀ fig2, scatterChart df = .ok fig2 → fig2 = fig := by
  have h := h0
  unfold scatterChart at h
  rcases except_bind_ok.mp h with ⟨x, hx, h⟩
  rcases except_bind_ok.mp h with ⟨y, hy, h⟩
  simp only [pure, Except.pure, Except.ok.injEq] at h
  subst h
  unfold getCol at hx hy
  constructor
  · split_ifs at hx with hmem
    cases hx
    simp only [List.length_map, pandas_sample_length]
    exact min_eq_left (min_le_right 2000 df.rows.length)
  constructor
  · split_ifs at hy with hmem
    cases hy
    simp only [List.length_map, pandas_sample_length]
    exact min_eq_left (min_le_right 2000 df.rows.length)
  · intro fig2 h2
    rw [h0] at h2
    exact (Except.ok.inj h2).symm

/-- A one-row frame carrying the scatter input columns. -/
def dfS : DataFrame :=
  ⟨["performance_score", "price"], [fun _ => Cell.num 1]⟩

/-- Witness for claim C8 at a concrete input: the sampled arrays have
length `min 2000 1 = 1` and the construction is deterministic. -/
theorem scatter_sample_witness :
    ([Cell.num 1] : List Cell).length = min 2000 dfS.rows.length ∧
    ([Cell.num 1] : List Cell).length = min 2000 dfS.rows.length ∧
    ∀ fig2, scatterChart dfS = .ok fig2 → fig2 = ⟨[Cell.num 1], [Cell.num 1]⟩ :=
  scatter_sample_spec dfS ⟨[Cell.num 1], [Cell.num 1]⟩ (by rfl)

/-- Mapping then keeping the `some`s is `filterMap`. -/
theorem reduceOption_map_eq_filterMap {α β : Type} (f : α → Option β) (l : List α) :
    (l.map f).reduceOption = l.filterMap f := by
  induction l with
  | nil => rfl
  | cons a t ih =>
    cases h : f a <;> simp [List.reduceOption, List.filterMap_cons, h, ih]

/-- The pandas linear-interpolation quantile at probability one half equals
the median obtained by fully sorting and taking the middle element (or the
mean of the two middle elements for an even count). -/
theorem quantile_half_eq_median (l : List ℚ) :
    pandasQuantile l (1/2) = medianViaSort l := by
  unfold pandasQuantile medianViaSort
  by_cases hl : l = []
  · simp [hl]
  · rw [if_neg hl, if_neg hl]
    dsimp only
    set s := l.insertionSort (fun a b => a ≤ b) with hs
    have hlen : s.length = l.length := (List.perm_insertionSort _ l).length_eq
    have hpos : 0 < s.length := by
      rw [hlen]
      exact List.length_pos.mpr hl
    rcases Nat.even_or_odd s.length with he | ho
    · obtain ⟨m, hm⟩ := he
      have hm1 : 1 ≤ m := by omega
      rw [hm]
      have hfloor : ⌊(1/2 : ℚ) * ((↑(m + m) : ℚ) - 1)⌋ = (m : ℤ) - 1 := by
        rw [Int.floor_eq_iff]
        push_cast
        constructor <;> linarith
      rw [hfloor]
      rw [show ((m : ℤ) - 1).toNat = m - 1 from by omega]
      rw [show (1/2 : ℚ) * ((↑(m + m) : ℚ) - 1) - (((m : ℤ) - 1 : ℤ) : ℚ) = 1/2 from by
        push_cast; ring]
      rw [show m - 1 + 1 = m from by omega]
      rw [if_neg (by omega : ¬(m + m) % 2 = 1)]
      rw [show (m + m) / 2 = m from by omega]
      exact congrArg some (by ring)
    · obtain ⟨m, hm⟩ := ho
      rw [hm]
      have hval : (1/2 : ℚ) * ((↑(2 * m + 1) : ℚ) - 1) = (m : ℚ) := by
        push_cast; ring
      rw [hval, Int.floor_natCast]
      rw [show ((m : ℤ)).toNat = m from by omega]
      simp only [Int.cast_natCast, sub_self, zero_mul, add_zero]
      rw [if_pos (by omega : (2 * m + 1) % 2 = 1)]
      rw [show (2 * m + 1) / 2 = m from by omega]

/-- A successful vectorized numeric view is the pointwise safe view. -/
theorem mapME_toNumE_eq {cells : List Cell} {vals : List (Option ℚ)}
    (h : mapME toNumE cells = .ok vals) : vals = cells.map toNumSafe := by
  induction cells generalizing vals with
  | nil =>
    simp only [mapME] at h
    cases h
    rfl
  | cons a t ih =>
    simp only [mapME] at h
    rcases except_bind_ok.mp h with ⟨b, hb, h⟩
    rcases except_bind_ok.mp h with ⟨bs, hbs, h⟩
    simp only [pure, Except.pure, Except.ok.injEq] at h
    subst h
    have hb2 : b = toNumSafe a := by
      cases a <;> simp [toNumE, toNumSafe] at hb ⊢ <;> exact hb.symm
    rw [hb2, ih hbs]
    rfl

/-- Claim C4: for every numerical column processed by
`get_descriptive_statistics`, the reported quartile Q2 equals the median of
the non-missing column values computed independently via full sort. -/
theorem q2_eq_median (df : DataFrame) (col : String) (ns : NumStat)
    (stats : List (String × ColStat))
    (h1 : get_descriptive_statistics (some df) = .ok stats)
    (h2 : (col, ColStat.numerical ns) ∈ stats) :
    ns.q2 = medianViaSort (cellNums (colCells df col)) := by
  unfold get_descriptive_statistics at h1
  rcases except_bind_ok.mp h1 with ⟨numPart, hnum, h1⟩
  simp only [pure, Except.pure, Except.ok.injEq] at h1
  subst h1
  rcases List.mem_append.mp h2 with hc | hn
  · rcases List.mem_map.mp hc with ⟨c, _, hceq⟩
    cases hceq
  · rcases mapME_ok_mem hnum _ hn with ⟨c, hcmem, hceq⟩
    cases hx : numStatOf (colCells df c) with
    | error e =>
      rw [hx] at hceq
      cases hceq
    | ok s0 =>
      rw [hx] at hceq
      simp only [Except.map, Except.ok.injEq, Prod.mk.injEq] at hceq
      obtain ⟨hcol, hns⟩ := hceq
      subst hcol
      have hns2 : s0 = ns := by
        cases hns
        rfl
      subst hns2
      unfold numStatOf at hx
      rcases except_bind_ok.mp hx with ⟨vals, hvals, hx⟩
      simp only [pure, Except.pure, Except.ok.injEq] at hx
      have hq2 : s0.q2 =
          pandasQuantile (vals.reduceOption) (1/2) := by
        rw [← hx]
      rw [hq2, mapME_toNumE_eq hvals, reduceOption_map_eq_filterMap]
      exact quantile_half_eq_median _

/-- A concrete three-row frame with a single numerical column. -/
def dfStat : DataFrame :=
  ⟨["price"], [fun _ => Cell.num 1, fun _ => Cell.num 2, fun _ => Cell.num 4]⟩

/-- The statistics computed for `dfStat`. -/
def statsW : List (String × ColStat) :=
  match get_descriptive_statistics (some dfStat) with
  | .ok l => l
  | .error _ => []

/-- The numerical record computed for the `price` column of `dfStat`. -/
def nsW : NumStat :=
  match statsW with
  | (_, ColStat.numerical s) :: _ => s
  | _ => ⟨⟨0, SVal.nanv, SVal.nanv, SVal.nanv, SVal.nanv, SVal.nanv,
           SVal.nanv, SVal.nanv⟩, none, none, none⟩

/-- Witness for claim C4 at a concrete input: on values 1, 2, 4 the
reported Q2 is the sorted middle element 2. -/
theorem q2_eq_median_witness :
    nsW.q2 = medianViaSort (cellNums (colCells dfStat "price")) ∧
    nsW.q2 = some 2 := by
  have h1 : nsW.q2 = medianViaSort (cellNums (colCells dfStat "price")) :=
    q2_eq_median dfStat "price" nsW statsW rfl (List.mem_singleton.mpr rfl)
  refine ⟨h1, ?_⟩
  rw [h1]
  decide

/-- Counting a disjunction of pointwise-disjoint predicates adds the
counts. -/
theorem countP_or_disjoint {α : Type} (p q : α → Bool) (l : List α)
    (h : ∀ a ∈ l, ¬(p a = true ∧ q a = true)) :
    l.countP (fun a => p a || q a) = l.countP p + l.countP q := by
  induction l with
  | nil => rfl
  | cons a t ih =>
    have ht : ∀ b ∈ t, ¬(p b = true ∧ q b = true) :=
      fun b hb => h b (List.mem_cons_of_mem a hb)
    rcases Bool.eq_false_or_eq_true (p a) with hp | hp <;>
      rcases Bool.eq_false_or_eq_true (q a) with hq | hq
    · exact absurd ⟨hp, hq⟩ (h a (List.mem_cons_self a t))
    · simp [List.countP_cons, hp, hq, ih ht]
      omega
    · simp [List.countP_cons, hp, hq, ih ht]
      omega
    · simp [List.countP_cons, hp, hq, ih ht]

/-- Summing the per-key counts over a duplicate-free key list counts the
rows whose key lies in the list. -/
theorem sum_counts_eq_countP_mem {α : Type} (l : List α) (p : α → Bool)
    (key : α → Cell) :
    ∀ gs : List Cell, gs.Nodup →
      (gs.map (fun g => l.countP (fun a => p a && decide (key a = g)))).sum =
        l.countP (fun a => p a && decide (key a ∈ gs)) := by
  intro gs
  induction gs with
  | nil =>
    intro _
    simp [List.countP_eq_zero]
  | cons g gs ih =>
    intro hnd
    rw [List.nodup_cons] at hnd
    simp only [List.map_cons, List.sum_cons, ih hnd.2]
    rw [← countP_or_disjoint (fun a => p a && decide (key a = g))
      (fun a => p a && decide (key a ∈ gs)) l ?_]
    · apply List.countP_congr
      intro a _
      rcases Bool.eq_false_or_eq_true (p a) with hp | hp <;>
        simp [hp, List.mem_cons]
    · intro a _ hcon
      rcases hcon with ⟨h1, h2⟩
      simp only [Bool.and_eq_true, decide_eq_true_eq] at h1 h2
      exact hnd.1 (h1.2 ▸ h2.2)

/-- A conjunctive count reaches the full count exactly when the second
predicate holds on every element satisfying the first. -/
theorem countP_and_eq_iff {α : Type} (p q : α → Bool) (l : List α) :
    l.countP (fun a => p a && q a) = l.countP p ↔
      ∀ a ∈ l, p a = true → q a = true := by
  induction l with
  | nil => simp
  | cons a t ih =>
    have hle : t.countP (fun x => p x && q x) ≤ t.countP p :=
      List.countP_mono_left (fun x _ hx => by
        simp only [Bool.and_eq_true] at hx
        exact hx.1)
    simp only [List.countP_cons, List.mem_cons]
    rcases Bool.eq_false_or_eq_true (p a) with hp | hp
    · rcases Bool.eq_false_or_eq_true (q a) with hq | hq
      · constructor
        · intro h12 b hb hpb
          rcases hb with rfl | hb
          · exact hq
          · refine (ih.mp ?_) b hb hpb
            have h13 : t.countP (fun x => p x && q x) + 1 = t.countP p + 1 := by
              simpa [hp, hq] using h12
            omega
        · intro h2
          have h3 := ih.mpr (fun b hb hpb => h2 b (Or.inr hb) hpb)
          simp [hp, hq, h3]
      · constructor
        · intro h12
          exfalso
          have h13 : t.countP (fun x => p x && q x) = t.countP p + 1 := by
            simpa [hp, hq] using h12
          omega
        · intro h2
          exact absurd (h2 a (Or.inl rfl) hp) (by simp [hq])
    · constructor
      · intro h12 b hb hpb
        rcases hb with rfl | hb
        · exact absurd hpb (by simp [hp])
        · exact (ih.mp (by simpa [hp] using h12)) b hb hpb
      · intro h2
        have h3 := ih.mpr (fun b hb hpb => h2 b (Or.inr hb) hpb)
        simp [hp, h3]

/-- The keys of `value_counts` are pairwise distinct. -/
theorem valueCounts_keys_nodup (cells : List Cell) :
    ((valueCounts cells).map Prod.fst).Nodup := by
  unfold valueCounts
  have hperm :=
    (List.perm_insertionSort (fun x y : Cell × ℕ => y.2 ≤ x.2)
      (((cells.filter (fun c => decide (c ≠ Cell.na))).dedup).map
        (fun k => (k, cells.count k)))).map Prod.fst
  have hkeys : ((((cells.filter (fun c => decide (c ≠ Cell.na))).dedup).map
      (fun k => (k, cells.count k))).map Prod.fst) =
      (cells.filter (fun c => decide (c ≠ Cell.na))).dedup := by
    rw [List.map_map]
    exact List.map_id _
  rw [hkeys] at hperm
  exact hperm.symm.nodup (List.nodup_dedup _)

/-- The top-5 GPU brand keys are pairwise distinct. -/
theorem top5GpuBrands_nodup (df : DataFrame) : (top5GpuBrands df).Nodup := by
  unfold top5GpuBrands
  rw [List.map_take]
  exact (List.take_sublist _ _).nodup
    (valueCounts_keys_nodup (df.rows.map (fun r => r "gpu_brand")))

/-- Claim C5: in the stacked GPU-brand chart, for every device type with at
least one row the five reported percentages sum to at most 100, with
equality exactly when the top-5 brands account for every row of that
device type. -/
theorem stacked_percentages_spec (df : DataFrame) (fig : StackedFig)
    (h0 : stackedGpuDeviceChart df = .ok fig) (i : ℕ) (d : Cell)
    (hx : fig.x[i]? = some d) (htot : 0 < deviceTypeTotal df d) :
    ((fig.series.map (fun s => s.2.getD i 0)).sum ≤ 100) ∧
    (((fig.series.map (fun s => s.2.getD i 0)).sum = 100) ↔
      ∀ r ∈ df.rows, r "device_type" = d → r "gpu_brand" ∈ top5GpuBrands df) := by
  unfold stackedGpuDeviceChart at h0
  rcases except_bind_ok.mp h0 with ⟨gcol, hg, h0⟩
  rcases except_bind_ok.mp h0 with ⟨dcol, hd, h0⟩
  unfold getCol at hg hd
  split_ifs at hg with hgm
  cases hg
  split_ifs at hd with hdm
  cases hd
  simp only [pure, Except.pure, Except.ok.injEq] at h0
  subst h0
  dsimp only at hx ⊢
  set gb := ((valueCounts (df.rows.map (fun r => r "gpu_brand"))).take 5).map Prod.fst
    with hgb
  set dts := (valueCounts (df.rows.map (fun r => r "device_type"))).map Prod.fst
    with hdts
  clear_value gb dts
  have htop : top5GpuBrands df = gb := by
    rw [hgb]
    rfl
  have hser : ((gb.map (fun g => (g, dts.map (fun d2 => gpuPct df d2 g)))).map
      (fun s => s.2.getD i 0)) = gb.map (fun g => gpuPct df d g) := by
    rw [List.map_map]
    apply List.map_congr_left
    intro g _
    show (dts.map (fun d2 => gpuPct df d2 g)).getD i 0 = gpuPct df d g
    rw [List.getD_eq_getElem?_getD, List.getElem?_map, hx]
    rfl
  rw [hser]
  have hpct : ∀ g ∈ gb, gpuPct df d g =
      (gpuDeviceCount df d g : ℚ) * (100 / (deviceTypeTotal df d : ℚ)) := by
    intro g _
    unfold gpuPct
    rw [if_pos htot, div_mul_eq_mul_div, mul_div_assoc]
  rw [List.map_congr_left hpct, List.sum_map_mul_right]
  set T := deviceTypeTotal df d with hT
  have hTpos : (0 : ℚ) < (T : ℚ) := by exact_mod_cast htot
  have hcast : (gb.map (fun g => (gpuDeviceCount df d g : ℚ))).sum =
      ((gb.map (fun g => gpuDeviceCount df d g)).sum : ℚ) := by
    rw [Nat.cast_list_sum, List.map_map]
    rfl
  rw [hcast]
  have hcnt : ∀ g, gpuDeviceCount df d g = df.rows.countP
      (fun r => decide (r "device_type" = d) && decide (r "gpu_brand" = g)) := by
    intro g
    unfold gpuDeviceCount
    apply List.countP_congr
    intro r _
    constructor
    · intro h5
      simp only [decide_eq_true_eq] at h5
      simp [h5.1, h5.2]
    · intro h5
      simp only [Bool.and_eq_true, decide_eq_true_eq] at h5
      simp [h5.1, h5.2]
  have hnd : gb.Nodup := by
    rw [hgb]
    exact top5GpuBrands_nodup df
  have hsum := sum_counts_eq_countP_mem df.rows
    (fun r => decide (r "device_type" = d)) (fun r => r "gpu_brand") gb hnd
  rw [List.map_congr_left (fun g _ => hcnt g), hsum]
  set S := df.rows.countP
    (fun r => decide (r "device_type" = d) && decide (r "gpu_brand" ∈ gb)) with hS
  have hTcnt : T = df.rows.countP (fun r => decide (r "device_type" = d)) := by
    rw [hT]
    rfl
  have hSle : S ≤ T := by
    rw [hS, hTcnt]
    exact List.countP_mono_left (fun r _ hr => by
      simp only [Bool.and_eq_true] at hr
      exact hr.1)
  constructor
  · calc (S : ℚ) * (100 / (T : ℚ)) ≤ (T : ℚ) * (100 / (T : ℚ)) := by
          apply mul_le_mul_of_nonneg_right
          · exact_mod_cast hSle
          · positivity
      _ = 100 := by field_simp
  · constructor
    · intro heq
      have hST : S = T := by
        have h7 : (S : ℚ) * 100 = 100 * (T : ℚ) := by
          field_simp at heq
          linarith
        have h8 : (S : ℚ) = (T : ℚ) := by linarith
        exact_mod_cast h8
      have hcov := (countP_and_eq_iff (fun r => decide (r "device_type" = d))
        (fun r => decide (r "gpu_brand" ∈ gb)) df.rows).mp (by
          rw [← hS, ← hTcnt]
          exact hST)
      intro r hr hdt
      have h6 := hcov r hr (by simp [hdt])
      simp only [decide_eq_true_eq] at h6
      rw [htop]
      exact h6
    · intro hcov
      have hST : S = T := by
        rw [hS, hTcnt]
        apply (countP_and_eq_iff (fun r => decide (r "device_type" = d))
          (fun r => decide (r "gpu_brand" ∈ gb)) df.rows).mpr
        intro r hr hdt
        simp only [decide_eq_true_eq] at hdt
        have h6 := hcov r hr hdt
        rw [htop] at h6
        simp [h6]
      rw [hST]
      field_simp

/-- A concrete two-row frame for the stacked chart. -/
def dfP : DataFrame :=
  ⟨["gpu_brand", "device_type"],
   [fun c => if c = "device_type" then Cell.str "Laptop"
             else if c = "gpu_brand" then Cell.str "NVIDIA" else Cell.na,
    fun c => if c = "device_type" then Cell.str "Laptop"
             else if c = "gpu_brand" then Cell.str "AMD" else Cell.na]⟩

/-- The stacked figure built from `dfP`. -/
def figP : StackedFig :=
  match stackedGpuDeviceChart dfP with
  | .ok f => f
  | .error _ => ⟨[], []⟩

/-- Witness for claim C5 at a concrete input: the Laptop device type has
two rows and both GPU brands are among the top 5. -/
theorem stacked_percentages_witness :
    ((figP.series.map (fun s => s.2.getD 0 0)).sum ≤ 100) ∧
    (((figP.series.map (fun s => s.2.getD 0 0)).sum = 100) ↔
      ∀ r ∈ dfP.rows, r "device_type" = Cell.str "Laptop" →
        r "gpu_brand" ∈ top5GpuBrands dfP) :=
  stacked_percentages_spec dfP figP rfl 0 (Cell.str "Laptop") (by decide) (by decide)

/-- Claim C6 (amended): in the line chart, a release year with fewer than
10 rows never appears; a year appears whenever at least 10 of its rows have
a non-missing price (the threshold counts non-missing prices, so a year
with exactly 10 rows appears only when all its prices are present); every
included year carries the mean of its non-missing prices rounded half-even
to 2 decimals; and the years are in ascending order. -/
theorem line_price_trend_spec (df : DataFrame) (fig : LineFig)
    (h0 : linePriceTrendChart df = .ok fig) :
    (∀ y : ℚ, df.rows.countP (fun r => decide (r "release_year" = Cell.num y)) < 10 →
      y ∉ fig.x) ∧
    (∀ y : ℚ, 10 ≤ (yearPrices df y).length → y ∈ fig.x) ∧
    (∀ (i : ℕ) (y : ℚ), fig.x[i]? = some y →
      fig.y[i]? = some ((meanList (yearPrices df y)).map roundQ2)) ∧
    fig.x.Pairwise (· ≤ ·) := by
  unfold linePriceTrendChart at h0
  rcases except_bind_ok.mp h0 with ⟨ycol, hy, h0⟩
  rcases except_bind_ok.mp h0 with ⟨pcol, hp, h0⟩
  rcases except_bind_ok.mp h0 with ⟨ys, hys, h0⟩
  rcases except_bind_ok.mp h0 with ⟨ps, hps, h0⟩
  simp only [pure, Except.pure, Except.ok.injEq] at h0
  subst h0
  unfold getCol at hy hp
  split_ifs at hy with hym
  cases hy
  split_ifs at hp with hpm
  cases hp
  have hys2 := mapME_toNumE_eq hys
  have hps2 := mapME_toNumE_eq hps
  subst hys2
  subst hps2
  have hpair : (((df.rows.map (fun r => r "release_year")).map toNumSafe).zip
      ((df.rows.map (fun r => r "price")).map toNumSafe)) =
      df.rows.map (fun r => (toNumSafe (r "release_year"), toNumSafe (r "price"))) := by
    rw [List.map_map, List.map_map, List.zip_map']
    rfl
  rw [hpair]
  set P := df.rows.map (fun r => (toNumSafe (r "release_year"), toNumSafe (r "price")))
    with hP
  have hgrp : ∀ y : ℚ,
      P.filterMap (fun p => if p.1 = some y then p.2 else none) = yearPrices df y := by
    intro y
    rw [hP, List.filterMap_map]
    unfold yearPrices
    apply List.filterMap_congr
    intro r _
    rcases hy1 : r "release_year" with s | q | _ <;>
      rcases hy2 : r "price" with s2 | p2 | _ <;>
        simp [toNumSafe, hy1, hy2]
  simp only [hgrp]
  set yrs := (P.filterMap Prod.fst).dedup.insertionSort (fun a b => a ≤ b) with hyrs
  set E := yrs.map (fun y =>
    (y, (meanList (yearPrices df y)).map roundQ2, (yearPrices df y).length)) with hE
  set K := E.filter (fun e => decide (10 ≤ e.2.2)) with hK
  have hyrs_mem : ∀ y : ℚ,
      y ∈ yrs ↔ ∃ r ∈ df.rows, toNumSafe (r "release_year") = some y := by
    intro y
    rw [hyrs, (List.perm_insertionSort _ _).mem_iff, List.mem_dedup, hP,
      List.filterMap_map, List.mem_filterMap]
    exact Iff.rfl
  have hmemK : ∀ y : ℚ,
      y ∈ K.map (fun e => e.1) ↔ y ∈ yrs ∧ 10 ≤ (yearPrices df y).length := by
    intro y
    constructor
    · intro hin
      rcases List.mem_map.mp hin with ⟨e, heK, he1⟩
      rcases List.mem_filter.mp (hK ▸ heK) with ⟨heE, hcnt⟩
      rcases List.mem_map.mp (hE ▸ heE) with ⟨y2, hy2, heq⟩
      subst heq
      simp only [decide_eq_true_eq] at hcnt
      cases he1
      exact ⟨hy2, hcnt⟩
    · intro ⟨hyin, hge⟩
      refine List.mem_map.mpr ⟨(y, (meanList (yearPrices df y)).map roundQ2,
        (yearPrices df y).length), ?_, rfl⟩
      rw [hK]
      refine List.mem_filter.mpr ⟨?_, by simp [hge]⟩
      rw [hE]
      exact List.mem_map.mpr ⟨y, hyin, rfl⟩
  have hlen_le : ∀ y : ℚ, (yearPrices df y).length ≤
      df.rows.countP (fun r => decide (r "release_year" = Cell.num y)) := by
    intro y
    unfold yearPrices
    rw [List.length_filterMap_eq_countP]
    apply List.countP_mono_left
    intro r _ hr
    rcases hy1 : r "release_year" with s | q | _
    · rw [hy1] at hr
      simp at hr
    · rcases hy2 : r "price" with s2 | p2 | _
      · rw [hy1, hy2] at hr
        simp at hr
      · rw [hy1, hy2] at hr
        simp at hr
        simp [hy1, hr]
      · rw [hy1, hy2] at hr
        simp at hr
    · rw [hy1] at hr
      simp at hr
  refine ⟨?_, ?_, ?_, ?_⟩
  · intro y hcount hin
    rcases (hmemK y).mp hin with ⟨_, hge⟩
    have h9 := hlen_le y
    exact absurd (lt_of_le_of_lt (le_trans hge h9) hcount) (lt_irrefl 10)
  · intro y hge
    refine (hmemK y).mpr ⟨?_, hge⟩
    have hne : yearPrices df y ≠ [] := by
      intro hnil
      rw [hnil] at hge
      simp at hge
    rcases List.exists_mem_of_ne_nil _ hne with ⟨p, hpmem⟩
    unfold yearPrices at hpmem
    rcases List.mem_filterMap.mp hpmem with ⟨r, hrmem, hreq⟩
    refine (hyrs_mem y).mpr ⟨r, hrmem, ?_⟩
    rcases hy1 : r "release_year" with s | q | _
    · rw [hy1] at hreq
      simp at hreq
    · rcases hy2 : r "price" with s2 | p2 | _
      · rw [hy1, hy2] at hreq
        simp at hreq
      · rw [hy1, hy2] at hreq
        simp only [Option.ite_none_right_eq_some, Option.some.injEq] at hreq
        simp [hy1, toNumSafe, hreq.1]
      · rw [hy1, hy2] at hreq
        simp at hreq
    · rw [hy1] at hreq
      simp at hreq
  · intro i y hxy
    rw [List.getElem?_map] at hxy
    cases hKi : K[i]? with
    | none =>
      rw [hKi] at hxy
      cases hxy
    | some e =>
      rw [hKi] at hxy
      simp only [Option.map_some', Option.some.injEq] at hxy
      have heK : e ∈ K := List.getElem?_mem hKi
      rcases List.mem_filter.mp (hK ▸ heK) with ⟨heE, _⟩
      rcases List.mem_map.mp (hE ▸ heE) with ⟨y2, _, heq⟩
      subst heq
      cases hxy
      rw [List.getElem?_map, hKi]
      rfl
  · have hsorted : yrs.Pairwise (fun a b : ℚ => a ≤ b) := by
      rw [hyrs]
      exact List.sorted_insertionSort _ _
    have h1 : K.Sublist E := hK ▸ List.filter_sublist E
    have h2 := h1.map (fun e : ℚ × Option ℚ × ℕ => e.1)
    have h3 : E.map (fun e => e.1) = yrs := by
      rw [hE, List.map_map]
      exact List.map_id yrs
    rw [h3] at h2
    exact List.Pairwise.sublist h2 hsorted

/-- A row of release year 2020 with a given price cell. -/
def rowY (p : Cell) : Row := fun c =>
  if c = "release_year" then Cell.num 2020
  else if c = "price" then p else Cell.na

/-- Ten rows of year 2020, one of them with a missing price. -/
def dfC6a : DataFrame :=
  ⟨["release_year", "price"],
   List.replicate 9 (rowY (Cell.num 1)) ++ [rowY Cell.na]⟩

/-- Ten rows of year 2020, each with price 1/3. -/
def dfC6b : DataFrame :=
  ⟨["release_year", "price"], List.replicate 10 (rowY (Cell.num (1/3)))⟩

/-- The line figure of `dfC6a`. -/
def figC6a : LineFig :=
  match linePriceTrendChart dfC6a with
  | .ok f => f
  | .error _ => ⟨[], []⟩

/-- The line figure of `dfC6b`. -/
def figC6b : LineFig :=
  match linePriceTrendChart dfC6b with
  | .ok f => f
  | .error _ => ⟨[], []⟩

/-- Counterexample to claim C6 as stated: year 2020 has exactly 10 rows in
`dfC6a` yet does not appear (the threshold counts non-missing prices, and
one price is missing); and in `dfC6b` the reported y-value is the rounded
mean 0.33, not the exact mean 1/3. -/
theorem line_price_trend_counterexample :
    dfC6a.rows.countP (fun r => decide (r "release_year" = Cell.num 2020)) = 10 ∧
    linePriceTrendChart dfC6a = .ok figC6a ∧
    (2020 : ℚ) ∉ figC6a.x ∧
    linePriceTrendChart dfC6b = .ok figC6b ∧
    figC6b.x = [(2020 : ℚ)] ∧
    figC6b.y = [some ((33 : ℚ) / 100)] ∧
    meanList (yearPrices dfC6b 2020) = some ((1 : ℚ) / 3) ∧
    ((33 : ℚ) / 100) ≠ (1 : ℚ) / 3 := by
  have hgrp6 : yearPrices dfC6b 2020 = List.replicate 10 ((1 : ℚ) / 3) := rfl
  have hmean : meanList (List.replicate 10 ((1 : ℚ) / 3)) = some ((1 : ℚ) / 3) := by
    norm_num [meanList, List.sum_replicate]
  have hround : roundQ2 ((1 : ℚ) / 3) = (33 : ℚ) / 100 := by
    unfold roundQ2 roundHE
    norm_num
  have h6 : figC6b.y = [(meanList (yearPrices dfC6b 2020)).map roundQ2] := rfl
  refine ⟨by decide, rfl, by decide, rfl, by decide, ?_, ?_, by norm_num⟩
  · rw [h6, hgrp6, hmean]
    simp only [Option.map_some']
    rw [hround]
  · rw [hgrp6]
    exact hmean

/-- Witness for the amended claim C6 at a concrete input: year 2020 with
ten non-missing prices appears, and the x-values are ascending. -/
theorem line_price_trend_witness :
    ((2020 : ℚ) ∈ figC6b.x) ∧ figC6b.x.Pairwise (· ≤ ·) := by
  have h := line_price_trend_spec dfC6b figC6b rfl
  exact ⟨h.2.1 2020 (by decide), h.2.2.2⟩
